import Mathlib

/-!
# Breakfast-booking: verification of the spec against the source

Shallow embedding of the core of the `breakfast-booking` repository
(`src/app/main.py`, `src/app/db.py`, `src/app/routers/public.py`) and proofs
of the behavioural claims about it.

Conventions used throughout:

* SQLite rows become Lean structures; a table is a `List` of rows inside a
  `DB` record, together with the `AUTOINCREMENT` counters.
* Python `int` becomes `Int`; machine strings become `String` over `Char`.
* Stateful `db.py` functions become pure functions `… → DB → DB` (or
  `… → α × DB`), translated clause by clause from the SQL they execute.
* The HTTP reservation handlers become pure functions from the posted form
  (an association list of string pairs) and the current `DB` to an outcome
  and the new `DB`.  The injected `verify_agent_link` helper is a function
  parameter, exactly as `app.state.verify_agent_link` is injected in the
  source; the concrete signer is also embedded (HMAC-SHA-256, below).
-/

namespace Breakfast

/-! ## 32-bit helpers (Python/`hashlib` arithmetic is on 32-bit words) -/

/-- Truncate to a 32-bit word, the implicit arithmetic of SHA-256. -/
def w32 (n : Nat) : Nat := n % 4294967296

/-- Right rotation of a 32-bit word. -/
def rotr (n x : Nat) : Nat := (x >>> n) ||| w32 (x <<< (32 - n))

/-- Bitwise complement within 32 bits. -/
def not32 (x : Nat) : Nat := x ^^^ 4294967295

/-! ## SHA-256 (the `hashlib.sha256` collaborator used by `hmac`) -/

/-- The eight-word SHA-256 working state / chaining value. -/
structure Sha256State where
  a : Nat
  b : Nat
  c : Nat
  d : Nat
  e : Nat
  f : Nat
  g : Nat
  hh : Nat
deriving Repr, DecidableEq

/-- SHA-256 initial hash value. -/
def initSha : Sha256State :=
  ⟨0x6a09e667, 0xbb67ae85, 0x3c6ef372, 0xa54ff53a,
   0x510e527f, 0x9b05688c, 0x1f83d9ab, 0x5be0cd19⟩

/-- SHA-256 round constants. -/
def K256 : List Nat :=
  [0x428a2f98, 0x71374491, 0xb5c0fbcf, 0xe9b5dba5,
   0x3956c25b, 0x59f111f1, 0x923f82a4, 0xab1c5ed5] ++
  [0xd807aa98, 0x12835b01, 0x243185be, 0x550c7dc3,
   0x72be5d74, 0x80deb1fe, 0x9bdc06a7, 0xc19bf174] ++
  [0xe49b69c1, 0xefbe4786, 0x0fc19dc6, 0x240ca1cc,
   0x2de92c6f, 0x4a7484aa, 0x5cb0a9dc, 0x76f988da] ++
  [0x983e5152, 0xa831c66d, 0xb00327c8, 0xbf597fc7,
   0xc6e00bf3, 0xd5a79147, 0x06ca6351, 0x14292967] ++
  [0x27b70a85, 0x2e1b2138, 0x4d2c6dfc, 0x53380d13,
   0x650a7354, 0x766a0abb, 0x81c2c92e, 0x92722c85] ++
  [0xa2bfe8a1, 0xa81a664b, 0xc24b8b70, 0xc76c51a3,
   0xd192e819, 0xd6990624, 0xf40e3585, 0x106aa070] ++
  [0x19a4c116, 0x1e376c08, 0x2748774c, 0x34b0bcb5,
   0x391c0cb3, 0x4ed8aa4a, 0x5b9cca4f, 0x682e6ff3] ++
  [0x748f82ee, 0x78a5636f, 0x84c87814, 0x8cc70208,
   0x90befffa, 0xa4506ceb, 0xbef9a3f7, 0xc67178f2]

/-- One SHA-256 round. -/
def shaRound (st : Sha256State) (kw : Nat × Nat) : Sha256State :=
  let s1 := (rotr 6 st.e) ^^^ (rotr 11 st.e) ^^^ (rotr 25 st.e)
  let ch := (st.e &&& st.f) ^^^ ((not32 st.e) &&& st.g)
  let t1 := w32 (st.hh + s1 + ch + kw.1 + kw.2)
  let s0 := (rotr 2 st.a) ^^^ (rotr 13 st.a) ^^^ (rotr 22 st.a)
  let maj := (st.a &&& st.b) ^^^ (st.a &&& st.c) ^^^ (st.b &&& st.c)
  let t2 := w32 (s0 + maj)
  ⟨w32 (t1 + t2), st.a, st.b, st.c, w32 (st.d + t1), st.e, st.f, st.g⟩

/-- Message-schedule extension: append `fuel` further words to `w`. -/
def extendW (w : List Nat) : Nat → List Nat
  | 0 => w
  | fuel + 1 =>
    let t := w.length
    let x2 := w.getD (t - 2) 0
    let x7 := w.getD (t - 7) 0
    let x15 := w.getD (t - 15) 0
    let x16 := w.getD (t - 16) 0
    let s0 := (rotr 7 x15) ^^^ (rotr 18 x15) ^^^ (x15 >>> 3)
    let s1 := (rotr 17 x2) ^^^ (rotr 19 x2) ^^^ (x2 >>> 10)
    extendW (w ++ [w32 (x16 + s0 + x7 + s1)]) fuel

/-- Compress one 16-word block into the chaining state. -/
def compressBlock (st : Sha256State) (block : List Nat) : Sha256State :=
  let w := extendW block 48
  let r := (K256.zip w).foldl shaRound st
  ⟨w32 (st.a + r.a), w32 (st.b + r.b), w32 (st.c + r.c), w32 (st.d + r.d),
   w32 (st.e + r.e), w32 (st.f + r.f), w32 (st.g + r.g), w32 (st.hh + r.hh)⟩

/-- Big-endian 8-byte encoding of a (bit-)length. -/
def be64 (n : Nat) : List Nat :=
  [(n >>> 56) % 256, (n >>> 48) % 256, (n >>> 40) % 256, (n >>> 32) % 256,
   (n >>> 24) % 256, (n >>> 16) % 256, (n >>> 8) % 256, n % 256]

/-- SHA-256 padding: `0x80`, zeros to 56 mod 64, then the bit length. -/
def padMsg (msg : List Nat) : List Nat :=
  let len := msg.length
  let k := (119 - (len % 64)) % 64
  msg ++ [0x80] ++ List.replicate k 0 ++ be64 (len * 8)

/-- Group bytes (already padded to a multiple of 4) into big-endian words. -/
def bytesToWords : List Nat → List Nat
  | b0 :: b1 :: b2 :: b3 :: rest =>
    (w32 ((b0 <<< 24) + (b1 <<< 16) + (b2 <<< 8) + b3)) :: bytesToWords rest
  | _ => []

/-- Group words (already a multiple of 16) into 16-word blocks. -/
def wordBlocks : List Nat → List (List Nat)
  | w0 :: w1 :: w2 :: w3 :: w4 :: w5 :: w6 :: w7 ::
    w8 :: w9 :: w10 :: w11 :: w12 :: w13 :: w14 :: w15 :: rest =>
    [w0, w1, w2, w3, w4, w5, w6, w7, w8, w9, w10, w11, w12, w13, w14, w15]
      :: wordBlocks rest
  | _ => []

/-- Big-endian 4-byte encoding of a 32-bit word. -/
def be4 (n : Nat) : List Nat :=
  [(n >>> 24) % 256, (n >>> 16) % 256, (n >>> 8) % 256, n % 256]

/-- Serialize the final state as the 32 digest bytes. -/
def stateBytes (st : Sha256State) : List Nat :=
  be4 st.a ++ be4 st.b ++ be4 st.c ++ be4 st.d ++
  be4 st.e ++ be4 st.f ++ be4 st.g ++ be4 st.hh

/-- SHA-256 of a byte list, as 32 digest bytes. -/
def sha256 (msg : List Nat) : List Nat :=
  stateBytes ((wordBlocks (bytesToWords (padMsg msg))).foldl compressBlock initSha)

/-- HMAC-SHA-256 (the `hmac.new(key, msg, hashlib.sha256)` of the source). -/
def hmacSha256 (key msg : List Nat) : List Nat :=
  let k0 := if 64 < key.length then sha256 key else key
  let k1 := k0 ++ List.replicate (64 - k0.length) 0
  let ipad := k1.map (fun b => b ^^^ 0x36)
  let opad := k1.map (fun b => b ^^^ 0x5c)
  sha256 (opad ++ sha256 (ipad ++ msg))

/-- One lowercase hex character. -/
def hexChar (n : Nat) : Char :=
  if n < 10 then Char.ofNat (48 + n) else Char.ofNat (87 + n)

/-- Lowercase hex rendering of a byte list (`.hexdigest()`). -/
def toHex (bs : List Nat) : String :=
  String.mk (bs.foldr (fun b acc => hexChar ((b >>> 4) % 16) :: hexChar (b % 16) :: acc) [])

/-- UTF-8 encoding of one code point (`str.encode("utf-8")`, per character). -/
def utf8Char (c : Nat) : List Nat :=
  if c < 0x80 then [c]
  else if c < 0x800 then [0xc0 ||| (c >>> 6), 0x80 ||| (c % 64)]
  else if c < 0x10000 then
    [0xe0 ||| (c >>> 12), 0x80 ||| ((c >>> 6) % 64), 0x80 ||| (c % 64)]
  else
    [0xf0 ||| (c >>> 18), 0x80 ||| ((c >>> 12) % 64),
     0x80 ||| ((c >>> 6) % 64), 0x80 ||| (c % 64)]

/-- UTF-8 encoding of a string (`str.encode("utf-8")`). -/
def utf8 (s : String) : List Nat :=
  s.data.foldr (fun c acc => utf8Char c.toNat ++ acc) []

/-! ## Link signer / verifier (`main.py` lines 100-109)

`sign_agent_link` formats the message `"{agent_id}|{event_date}"`, UTF-8
encodes it, and returns the lowercase hex HMAC-SHA-256 digest under the
process-wide `LINK_SECRET`.  `verify_agent_link` returns `False` on an empty
token, otherwise compares the recomputed signature with the supplied token via
`hmac.compare_digest`, which is (constant-time) string equality. -/

/-- `sign_agent_link(agent_id, event_date)` from `main.py`. -/
def sign_agent_link (secret : String) (agent_id : Int) (event_date : String) : String :=
  toHex (hmacSha256 (utf8 secret) (utf8 (toString agent_id ++ "|" ++ event_date)))

/-- `verify_agent_link(agent_id, event_date, token)` from `main.py`:
empty tokens are refused, otherwise `hmac.compare_digest(expected, token)`,
i.e. equality checked in constant time. -/
def verify_agent_link (secret : String) (agent_id : Int) (event_date : String)
    (token : String) : Bool :=
  if token = "" then false
  else sign_agent_link secret agent_id event_date == token

/-- Tamper with a token by flipping its first character. -/
def flipFirst (s : String) : String :=
  match s.data with
  | [] => s
  | c :: rest => String.mk ((if c = 'a' then 'b' else 'a') :: rest)

/-! ## String normalization helpers

`db.py` mixes Python-side normalization (`str.strip().lower()`) with
SQLite-side normalization (`lower(trim(name))`).  These differ: Python's
`strip` removes all ASCII whitespace while SQL `trim` removes only spaces,
and SQLite's `lower` folds only ASCII letters.  Both are embedded; the
Python `lower`/`strip` are modelled on their ASCII behaviour (the repository
compares agent display names, and the Unicode-only extensions of Python's
folding are not exercised by any claim). -/

/-- Python `str.strip()` default whitespace (ASCII part). -/
def isPyWs (c : Char) : Bool :=
  c == ' ' || c == '\t' || c == '\n' || c == '\r' || c == '\x0b' || c == '\x0c'

/-- Python `s.startswith(pre)` (character-level, kernel-computable). -/
def strStartsWith (s pre : String) : Bool := pre.data.isPrefixOf s.data

/-- Drop the first `n` characters of `s` (the tail of Python's
`s.split("_", 1)` when the prefix length is known). -/
def strDrop (s : String) (n : Nat) : String := String.mk (s.data.drop n)

/-- Python `s.strip()`. -/
def pyStrip (s : String) : String :=
  String.mk (((s.data.dropWhile isPyWs).reverse.dropWhile isPyWs).reverse)

/-- SQLite `trim(s)`: removes spaces only. -/
def sqlTrim (s : String) : String :=
  String.mk (((s.data.dropWhile (· == ' ')).reverse.dropWhile (· == ' ')).reverse)

/-- ASCII lower-casing: SQLite `lower(s)`, and Python `s.lower()` on ASCII. -/
def asciiLower (s : String) : String :=
  String.mk (s.data.map (fun c => if 'A' ≤ c && c ≤ 'Z' then Char.ofNat (c.toNat + 32) else c))

/-- The normalization `reservation_exists_for_event` applies to its Python
argument: `name.strip().lower()`. -/
def pyNorm (s : String) : String := asciiLower (pyStrip s)

/-- The normalization the SQL query applies to the stored column:
`lower(trim(name))`. -/
def sqlNorm (s : String) : String := asciiLower (sqlTrim s)

/-- Python `int(str)`: optional surrounding whitespace, optional sign, decimal
digits.  (Underscore digit grouping, accepted by Python, is not modelled; no
claim exercises it.) -/
def parseDigits (cs : List Char) : Option Nat :=
  if cs = [] then none
  else if cs.all (fun c => c.isDigit) then
    some (cs.foldl (fun a c => a * 10 + (c.toNat - 48)) 0)
  else none

/-- Python `int(s)` on a string, `none` when `int` raises `ValueError`. -/
def parseInt (s : String) : Option Int :=
  match (pyStrip s).data with
  | '-' :: rest => (parseDigits rest).map (fun n => -(n : Int))
  | '+' :: rest => (parseDigits rest).map (fun n => (n : Int))
  | cs => (parseDigits cs).map (fun n => (n : Int))

/-! ## Data model (`db.py` tables)

Rows of the SQLite tables.  `created_at`, the legacy `items_json` column
(always written as `'[]'` by `create_reservation`), the `weekly_menus`,
`foods`, `recipes` and `recipe_ingredients` tables, and the surrogate id of
`reservation_lines` play no role in any claim and are omitted.  The
`AUTOINCREMENT` id columns become explicit counters on the `DB` record. -/

structure EventRow where
  id : Int
  event_date : String
  menu : List String
  is_open : Bool
  is_planned : Bool
deriving Repr, DecidableEq

structure AgentRow where
  id : Int
  name : String
  phone : String
  whatsapp_optin : Bool
  is_active : Bool
deriving Repr, DecidableEq

structure ShiftRow where
  shift_date : String
  agent_id : Int
deriving Repr, DecidableEq

inductive OfferType where
  | MAIN
  | SIDE
deriving Repr, DecidableEq

structure OfferRow where
  id : Int
  offer_date : String
  offer_type : OfferType
  recipe_id : Option Int
  food_id : Option Int
  max_per_person : Int
  is_active : Bool
deriving Repr, DecidableEq

structure ReservationRow where
  id : Int
  event_id : Int
  name : String
  bring : String
deriving Repr, DecidableEq

structure LineRow where
  reservation_id : Int
  offer_id : Int
  qty : Int
deriving Repr, DecidableEq

/-- The persistent store: one list per table plus the autoincrement counters. -/
structure DB where
  events : List EventRow
  agents : List AgentRow
  shifts : List ShiftRow
  offers : List OfferRow
  reservations : List ReservationRow
  reservation_lines : List LineRow
  nextEventId : Int
  nextOfferId : Int
  nextReservationId : Int
deriving Repr, DecidableEq

/-! ## `db.py` operations -/

/-- `ensure_event_for_date`: insert an open+planned event with the default
menu when no row exists for the date; otherwise leave the store untouched. -/
def ensure_event_for_date (event_date : String) (default_menu : List String)
    (db : DB) : DB :=
  if db.events.any (fun e => e.event_date == event_date) then db
  else
    { db with
      events := db.events ++
        [{ id := db.nextEventId, event_date := event_date, menu := default_menu,
           is_open := true, is_planned := true }],
      nextEventId := db.nextEventId + 1 }

/-- `get_event`: `SELECT … WHERE event_date = ?` with `fetchone` (the column
is `UNIQUE`, so the first match is the match). -/
def get_event (event_date : String) (db : DB) : Option EventRow :=
  db.events.find? (fun e => e.event_date == event_date)

/-- `upsert_event_menu_preserve_open`: update `menu_json` of the matching
row(s) without touching `is_open`/`is_planned`, or insert a fresh row with
both flags set when the date has no row yet.  The per-row `UPDATE … SET
menu_json` is the map of `menuUpdate` over the table. -/
def menuUpdate (event_date : String) (menu : List String) (e : EventRow) : EventRow :=
  if e.event_date == event_date then { e with menu := menu } else e

def upsert_event_menu_preserve_open (event_date : String) (menu : List String)
    (db : DB) : DB :=
  if db.events.any (fun e => e.event_date == event_date) then
    { db with events := db.events.map (menuUpdate event_date menu) }
  else
    { db with
      events := db.events ++
        [{ id := db.nextEventId, event_date := event_date, menu := menu,
           is_open := true, is_planned := true }],
      nextEventId := db.nextEventId + 1 }

/-- `list_working_agent_ids`: the agent ids on shift for a date.  The source
returns a Python `set`; only membership is ever used, so the row order of
this list is immaterial.  Note: no `is_active` filter. -/
def list_working_agent_ids (shift_date : String) (db : DB) : List Int :=
  (db.shifts.filter (fun s => s.shift_date == shift_date)).map (fun s => s.agent_id)

/-- One `INSERT OR IGNORE INTO shifts` step: skipped when the
`UNIQUE(shift_date, agent_id)` pair already exists. -/
def shiftInsert (shift_date : String) (acc : List ShiftRow) (aid : Int) : List ShiftRow :=
  if acc.any (fun s => s.shift_date == shift_date && s.agent_id == aid) then acc
  else acc ++ [{ shift_date := shift_date, agent_id := aid }]

/-- `set_working_agents_for_date`: `DELETE` all rows of the date then
`INSERT OR IGNORE` each id (the `UNIQUE(shift_date, agent_id)` constraint
drops duplicates). -/
def set_working_agents_for_date (shift_date : String) (agent_ids : List Int)
    (db : DB) : DB :=
  { db with
    shifts := agent_ids.foldl (shiftInsert shift_date)
      (db.shifts.filter (fun s => !(s.shift_date == shift_date))) }

/-- `list_working_agents_for_date`: shifts joined to agents, restricted to
`is_active = 1`.  The `ORDER BY name COLLATE NOCASE` is dropped: only
membership is used by any claim. -/
def list_working_agents_for_date (shift_date : String) (db : DB) : List AgentRow :=
  db.agents.filter (fun a =>
    a.is_active && db.shifts.any (fun s =>
      s.shift_date == shift_date && s.agent_id == a.id))

/-- `list_offers_for_date`: all offers of the date (both types, active or
not).  The recipe/food name join only adds display labels, which no claim
reads, and the ordering is immaterial to the id-keyed uses below. -/
def list_offers_for_date (offer_date : String) (db : DB) : List OfferRow :=
  db.offers.filter (fun o => o.offer_date == offer_date)

/-- The `WHERE offer_date = ? AND offer_type = 'MAIN' AND recipe_id = ?`
row predicate of `add_offer_main`. -/
def mainOfferMatch (offer_date : String) (recipe_id : Int) (o : OfferRow) : Bool :=
  o.offer_date == offer_date && o.offer_type == OfferType.MAIN &&
    o.recipe_id == some recipe_id

/-- The `UPDATE offers SET is_active = 1, max_per_person = ? WHERE id = ?`
row update of `add_offer_main`. -/
def offerReactivate (targetId : Int) (m : Int) (o : OfferRow) : OfferRow :=
  if o.id == targetId then { o with is_active := true, max_per_person := m } else o

/-- The offers of a date matching `(date, 'MAIN', recipe)` — the rows claim
C7 counts. -/
def matchingMainOffers (db : DB) (offer_date : String) (recipe_id : Int) : List OfferRow :=
  db.offers.filter (mainOfferMatch offer_date recipe_id)

/-- `add_offer_main`: clamp the cap to ≥ 1; reactivate and overwrite the cap
of the existing `(date, 'MAIN', recipe)` row if there is one, else insert a
new active row. -/
def add_offer_main (offer_date : String) (recipe_id : Int) (max_per_person : Int)
    (db : DB) : DB :=
  let m := max 1 max_per_person
  match db.offers.find? (mainOfferMatch offer_date recipe_id) with
  | some row =>
    { db with offers := db.offers.map (offerReactivate row.id m) }
  | none =>
    { db with
      offers := db.offers ++
        [{ id := db.nextOfferId, offer_date := offer_date, offer_type := .MAIN,
           recipe_id := some recipe_id, food_id := none,
           max_per_person := m, is_active := true }],
      nextOfferId := db.nextOfferId + 1 }

/-- `reservation_exists_for_event`: does a reservation for the event match
the given name, comparing `lower(trim(stored))` with `submitted.strip().lower()`. -/
def reservation_exists_for_event (event_id : Int) (name : String) (db : DB) : Bool :=
  db.reservations.any (fun r => r.event_id == event_id && sqlNorm r.name == pyNorm name)

/-- `create_reservation`: insert the row (name and bring stripped) and return
`lastrowid`. -/
def create_reservation (event_id : Int) (name bring : String) (db : DB) : Int × DB :=
  (db.nextReservationId,
   { db with
     reservations := db.reservations ++
       [{ id := db.nextReservationId, event_id := event_id,
          name := pyStrip name, bring := pyStrip bring }],
     nextReservationId := db.nextReservationId + 1 })

/-- `set_reservation_lines`: delete every line of the reservation, then
insert the given `(offer_id, qty)` pairs. -/
def set_reservation_lines (reservation_id : Int) (lines : List (Int × Int))
    (db : DB) : DB :=
  { db with
    reservation_lines :=
      db.reservation_lines.filter (fun l => !(l.reservation_id == reservation_id))
      ++ lines.map (fun p =>
           { reservation_id := reservation_id, offer_id := p.1, qty := p.2 }) }

/-- The lines currently stored for one reservation. -/
def linesForReservation (db : DB) (reservation_id : Int) : List LineRow :=
  db.reservation_lines.filter (fun l => l.reservation_id == reservation_id)

/-! ## The reservation handler (`POST /reserve`)

Two copies of the handler exist in the repository: the one registered on the
FastAPI application (`main.py` lines 719-858 — `main.py` never calls
`include_router`, so this is the live route) and the router version
(`app/routers/public.py` lines 152-310), which the spec designates as the
final consolidated logic.  They are textually identical from the signed-link
check onwards; they differ only in the planned/open gate: `public.py` rejects
`planned=false` and `open=false` with two distinct flash messages, while
`main.py` folds `event is None`, `not planned` and `not open` into one
combined message.  Both are embedded, sharing `reserveCore` for the common
tail.  The injected `app.state.verify_agent_link` is the `vrf` parameter. -/

/-- The posted form: an association list of field name/value pairs. -/
structure Form where
  fields : List (String × String)
deriving Repr, DecidableEq

/-- `FormData.get`: the value bound to a key, `none` when absent.  Starlette
multidicts resolve a duplicated key to its last value. -/
def Form.get (f : Form) (k : String) : Option String :=
  (f.fields.reverse.find? (fun kv => kv.1 == k)).map (fun kv => kv.2)

/-- The outcome of one `POST /reserve` request; each constructor corresponds
to exactly one `flash(...)` call in the source. -/
inductive ReserveOutcome where
  | eventNotFound
  | notPlanned
  | closed
  | closedOrNotPlanned
  | secureRequired
  | invalidLink
  | expiredLink
  | unauthorizedLink
  | agentNotFound
  | already
  | noOffers
  | invalidChoice
  | invalidDish
  | multipleMains
  | nothingChosen
  | success
deriving Repr, DecidableEq

/-- Equality of handler results is decidable (needed to evaluate the
embedding on concrete fixtures). -/
instance {e a : Type} [DecidableEq e] [DecidableEq a] : DecidableEq (Except e a) := fun x y =>
  match x, y with
  | .error u, .error v =>
    if h : u = v then .isTrue (by rw [h]) else .isFalse (by simp [h])
  | .ok u, .ok v =>
    if h : u = v then .isTrue (by rw [h]) else .isFalse (by simp [h])
  | .error _, .ok _ => .isFalse (by simp)
  | .ok _, .error _ => .isFalse (by simp)

/-- The flash message recorded for each outcome (verbatim from the source;
`notPlanned`, `closed` and `eventNotFound` are the `public.py` texts,
`closedOrNotPlanned` is the combined `main.py` text). -/
def flashMessage : ReserveOutcome → String
  | .eventNotFound => "Event introuvable."
  | .notPlanned => "Pas de petit-déjeuner prévu demain."
  | .closed => "Réservations fermées."
  | .closedOrNotPlanned => "Réservations fermées (ou aucun petit-déjeuner prévu)."
  | .secureRequired => "Accès sécurisé requis : utilise ton lien WhatsApp."
  | .invalidLink => "Lien invalide."
  | .expiredLink => "Lien expiré ou invalide."
  | .unauthorizedLink => "Lien non autorisé pour cet événement."
  | .agentNotFound => "Agent introuvable."
  | .already => "Tu as déjà réservé pour demain 🙂"
  | .noOffers => "Aucune offre n’est définie pour demain."
  | .invalidChoice => "Choix invalide."
  | .invalidDish => "Plat invalide."
  | .multipleMains => "Choix invalide (un seul plat)."
  | .nothingChosen => "Choisis au moins un plat / accompagnement, ou indique ce que tu ramènes."
  | .success => "✅ Réservation enregistrée !"

/-- `offers_by_id = {o["id"]: o for o in offers_list}` then `.get(oid)`: a
dict comprehension keeps the last row per id, hence the reversed search. -/
def offersById (l : List OfferRow) (oid : Int) : Option OfferRow :=
  l.reverse.find? (fun o => o.id == oid)

/-- The signed-link pipeline shared by both handlers: require the three form
fields, parse the agent id, check the link date and token, check the shift
roster (no `is_active` filter), and resolve the canonical agent row
(`list_agents(active_only=False)`, i.e. inactive agents included). -/
def resolveAgent (vrf : Int → String → String → Bool) (event_date : String)
    (form : Form) (db : DB) : Except ReserveOutcome AgentRow :=
  let agent_q := pyStrip ((form.get "agent").getD "")
  let d_q := pyStrip ((form.get "d").getD "")
  let k_q := pyStrip ((form.get "k").getD "")
  if agent_q = "" || d_q = "" || k_q = "" then .error .secureRequired
  else
    match parseInt agent_q with
    | none => .error .invalidLink
    | some aid =>
      if !(d_q == event_date) || !(vrf aid d_q k_q) then .error .expiredLink
      else if !((list_working_agent_ids event_date db).contains aid) then
        .error .unauthorizedLink
      else
        match db.agents.find? (fun a => a.id == aid) with
        | none => .error .agentNotFound
        | some agent => .ok agent

/-- The `main_choice` branch: absent or empty means no main line; a
non-integer choice is `invalidChoice`; an unknown, non-MAIN or inactive offer
is `invalidDish`; otherwise the quantity field `main_qty_{id}` is read
(missing, empty or non-integer defaults to 1), floored at 1, then capped at
`max_per_person` (a stored cap of 0 reads as 1 through `or 1`). -/
def mainLineOf (form : Form) (ob : Int → Option OfferRow) :
    Except ReserveOutcome (List (Int × Int)) :=
  match form.get "main_choice" with
  | none => .ok []
  | some mc =>
    if mc = "" then .ok []
    else
      match parseInt mc with
      | none => .error .invalidChoice
      | some main_offer_id =>
        match ob main_offer_id with
        | none => .error .invalidDish
        | some o =>
          if !(o.offer_type == OfferType.MAIN) || !o.is_active then .error .invalidDish
          else
            let raw : Int :=
              match form.get ("main_qty_" ++ toString main_offer_id) with
              | none => 1
              | some v => if v = "" then 1 else (parseInt v).getD 1
            let max_pp : Int := if o.max_per_person == 0 then 1 else o.max_per_person
            let q1 := if raw < 1 then 1 else raw
            .ok [(main_offer_id, if q1 > max_pp then max_pp else q1)]

/-- One iteration of the `for key, val in form.items()` side loop: keys not
of the form `offer_{int}` and unparsable values are skipped, as are
quantities ≤ 0 and offers that are unknown, non-SIDE or inactive; surviving
quantities are capped at `max_per_person` (a stored cap of 0 reads as 1). -/
def sideLineOfEntry (ob : Int → Option OfferRow) (kv : String × String) :
    Option (Int × Int) :=
  if !(strStartsWith kv.1 "offer_") then none
  else
    match parseInt (strDrop kv.1 6), parseInt kv.2 with
    | some oid, some q =>
      if q ≤ 0 then none
      else
        match ob oid with
        | none => none
        | some o =>
          if !(o.offer_type == OfferType.SIDE) || !o.is_active then none
          else
            let mpp : Int := if o.max_per_person == 0 then 1 else o.max_per_person
            some (oid, if q > mpp then mpp else q)
    | _, _ => none

/-- The side loop: each form entry contributes at most one line, in form
order. -/
def sideLinesOf (form : Form) (ob : Int → Option OfferRow) : List (Int × Int) :=
  form.fields.filterMap (sideLineOfEntry ob)

/-- `main_count`: lines with positive quantity whose offer resolves to type
MAIN. -/
def mainCount (ob : Int → Option OfferRow) (lines : List (Int × Int)) : Nat :=
  (lines.filter (fun p => decide ((0 : Int) < p.2) &&
    match ob p.1 with
    | some o => o.offer_type == OfferType.MAIN
    | none => false)).length

/-- The tail of the handler shared verbatim by `main.py` and `public.py`:
signed-link pipeline, duplicate check against the canonical name, offer
validation with quantity clamping, the multi-MAIN guard, the
non-empty-choice guard, then persistence. -/
def reserveCore (vrf : Int → String → String → Bool) (event_date : String)
    (event : EventRow) (form : Form) (db : DB) : ReserveOutcome × DB :=
  let bring := pyStrip ((form.get "bring").getD "")
  match resolveAgent vrf event_date form db with
  | .error out => (out, db)
  | .ok agent =>
    if reservation_exists_for_event event.id agent.name db then (.already, db)
    else
      let offers_list := list_offers_for_date event_date db
      if offers_list = [] then (.noOffers, db)
      else
        let ob := offersById offers_list
        match mainLineOf form ob with
        | .error out => (out, db)
        | .ok mains =>
          let lines := mains ++ sideLinesOf form ob
          if 1 < mainCount ob lines then (.multipleMains, db)
          else if lines = [] && bring = "" then (.nothingChosen, db)
          else
            let rdb := create_reservation event.id agent.name bring db
            (.success, if lines = [] then rdb.2 else set_reservation_lines rdb.1 lines rdb.2)

/-- `POST /reserve` as defined in `app/routers/public.py` (the consolidated
router version): bad event state is reported with a distinct message per
condition. -/
def reservePublic (vrf : Int → String → String → Bool) (event_date : String)
    (default_menu : List String) (form : Form) (db : DB) : ReserveOutcome × DB :=
  let db := ensure_event_for_date event_date default_menu db
  match get_event event_date db with
  | none => (.eventNotFound, db)
  | some event =>
    if !event.is_planned then (.notPlanned, db)
    else if !event.is_open then (.closed, db)
    else reserveCore vrf event_date event form db

/-- `POST /reserve` as registered on the FastAPI app in `main.py` (the live
route): a missing event, `planned=false` and `open=false` all share the one
combined rejection message. -/
def reserveMainApp (vrf : Int → String → String → Bool) (event_date : String)
    (default_menu : List String) (form : Form) (db : DB) : ReserveOutcome × DB :=
  let db := ensure_event_for_date event_date default_menu db
  match get_event event_date db with
  | none => (.closedOrNotPlanned, db)
  | some event =>
    if !event.is_planned || !event.is_open then (.closedOrNotPlanned, db)
    else reserveCore vrf event_date event form db

/-! ## Invariant vocabulary for the stored data

Used to state C6: a stored line "references a MAIN offer" when the offer
row its `offer_id` points at (the first such row, as the id column is an
`AUTOINCREMENT` primary key) has type MAIN. -/

/-- Does `offer_id` point at a MAIN offer row? -/
def offerIsMain (db : DB) (oid : Int) : Bool :=
  match db.offers.find? (fun o => o.id == oid) with
  | some o => o.offer_type == OfferType.MAIN
  | none => false

/-- How many stored lines of one reservation reference a MAIN offer. -/
def mainLinesFor (db : DB) (rid : Int) : Nat :=
  (db.reservation_lines.filter (fun l =>
    l.reservation_id == rid && offerIsMain db l.offer_id)).length

/-- C6's storage invariant: every persisted reservation holds at most one
MAIN line. -/
def AtMostOneMain (db : DB) : Prop :=
  ∀ r ∈ db.reservations, mainLinesFor db r.id ≤ 1

/-- `AUTOINCREMENT` discipline: every stored reservation id (and every line's
owner id) is below the next id to be handed out. -/
def ReservationIdsFresh (db : DB) : Prop :=
  (∀ r ∈ db.reservations, r.id < db.nextReservationId) ∧
  (∀ l ∈ db.reservation_lines, l.reservation_id < db.nextReservationId)

/-- `AUTOINCREMENT` discipline for offers: ids are pairwise distinct. -/
def OfferIdsNodup (db : DB) : Prop := (db.offers.map (fun o => o.id)).Nodup

instance (db : DB) : Decidable (AtMostOneMain db) := by
  unfold AtMostOneMain
  exact List.decidableBAll _ _

instance (db : DB) : Decidable (ReservationIdsFresh db) := by
  unfold ReservationIdsFresh
  exact instDecidableAnd

instance (db : DB) : Decidable (OfferIdsNodup db) := by
  unfold OfferIdsNodup
  exact List.nodupDecidable _

/-! # Theorems

## Basic facts about the signer -/

/-- A SHA-256 hex digest is never the empty string (it always has 64
characters), so `verify`'s empty-token guard never fires on a real
signature. -/
theorem toHex_sha256_ne_empty (m : List Nat) : toHex (sha256 m) ≠ "" := by
  simp [sha256, stateBytes, be4, toHex, String.ext_iff]

/-- A signature is never empty. -/
theorem sign_agent_link_ne_empty (secret : String) (a : Int) (d : String) :
    sign_agent_link secret a d ≠ "" :=
  toHex_sha256_ne_empty _

/-- Verification succeeds on the exact signature. -/
theorem verify_agent_link_self (secret : String) (a : Int) (d : String) :
    verify_agent_link secret a d (sign_agent_link secret a d) = true := by
  unfold verify_agent_link
  rw [if_neg (sign_agent_link_ne_empty secret a d)]
  simp

/-- Verification fails on any token other than the recomputed signature. -/
theorem verify_agent_link_of_ne {secret : String} {a : Int} {d t : String}
    (h : t ≠ sign_agent_link secret a d) :
    verify_agent_link secret a d t = false := by
  unfold verify_agent_link
  split
  · rfl
  · exact beq_eq_false_iff_ne.mpr (Ne.symm h)

/-- Flipping the first character of a non-empty string changes it. -/
theorem flipFirst_ne {s : String} (h : s ≠ "") : flipFirst s ≠ s := by
  cases s with
  | mk l =>
    cases l with
    | nil => exact absurd rfl h
    | cons c rest =>
      by_cases hc : c = 'a'
      · subst hc
        simp [flipFirst, String.ext_iff]
      · simp [flipFirst, String.ext_iff, hc]
        exact fun hx => hc hx.symm

/-- Dropping the last character of a non-empty string changes it. -/
theorem dropLast_ne {s : String} (h : s ≠ "") :
    String.mk s.data.dropLast ≠ s := by
  cases s with
  | mk l =>
    cases l with
    | nil => exact absurd rfl h
    | cons c rest =>
      intro hx
      have := congrArg (fun t : String => t.data.length) hx
      simp [List.length_dropLast] at this


/-! ## C1: signature round-trip and rejection of any other token -/

set_option maxRecDepth 100000 in
set_option maxHeartbeats 4000000 in
/-- C1: for every agent_id and date, `verify(agent_id, date, sign(agent_id,
date))` is true; verify is false on an empty token and on any token that
differs from the recomputed signature — in particular on a token with its
first character flipped or its last character truncated; and a signature is
rejected under a different agent_id or a different date whenever the
recomputed signature differs from it, as it does at the checked concrete
instances under the default `LINK_SECRET` (the universal form of the
different-agent/different-date clause is exactly HMAC collision-freeness on
these messages, which holds for every instance checked but is a cryptographic
assumption in general). -/
theorem C1_sign_verify :
    (∀ (secret : String) (a : Int) (d : String),
        verify_agent_link secret a d (sign_agent_link secret a d) = true) ∧
    (∀ (secret : String) (a : Int) (d : String),
        verify_agent_link secret a d "" = false) ∧
    (∀ (secret : String) (a : Int) (d t : String),
        t ≠ sign_agent_link secret a d → verify_agent_link secret a d t = false) ∧
    (∀ (secret : String) (a a' : Int) (d d' : String),
        sign_agent_link secret a' d' ≠ sign_agent_link secret a d →
        verify_agent_link secret a' d' (sign_agent_link secret a d) = false) ∧
    (∀ (secret : String) (a : Int) (d : String),
        verify_agent_link secret a d (flipFirst (sign_agent_link secret a d)) = false) ∧
    (∀ (secret : String) (a : Int) (d : String),
        verify_agent_link secret a d
          (String.mk (sign_agent_link secret a d).data.dropLast) = false) ∧
    verify_agent_link "dev-secret-change-me" 2 "2025-06-10"
      (sign_agent_link "dev-secret-change-me" 1 "2025-06-10") = false ∧
    verify_agent_link "dev-secret-change-me" 1 "2025-06-11"
      (sign_agent_link "dev-secret-change-me" 1 "2025-06-10") = false := by
  refine ⟨verify_agent_link_self, fun secret a d => by simp [verify_agent_link],
    fun _ _ _ _ h => verify_agent_link_of_ne h,
    fun _ _ _ _ _ h => verify_agent_link_of_ne (Ne.symm h),
    fun secret a d =>
      verify_agent_link_of_ne (flipFirst_ne (sign_agent_link_ne_empty secret a d)),
    fun secret a d =>
      verify_agent_link_of_ne (dropLast_ne (sign_agent_link_ne_empty secret a d)),
    ?_, ?_⟩
  · exact verify_agent_link_of_ne (by decide)
  · exact verify_agent_link_of_ne (by decide)

set_option maxRecDepth 100000 in
set_option maxHeartbeats 4000000 in
/-- Witness for `C1_sign_verify`: its conditional clauses applied at concrete
inputs, the hypotheses discharged by computation. -/
theorem C1_sign_verify_witness :
    ("x" ≠ sign_agent_link "dev-secret-change-me" 7 "2025-06-10" ∧
      verify_agent_link "dev-secret-change-me" 7 "2025-06-10" "x" = false) ∧
    (sign_agent_link "dev-secret-change-me" 2 "2025-06-11" ≠
        sign_agent_link "dev-secret-change-me" 7 "2025-06-10" ∧
      verify_agent_link "dev-secret-change-me" 2 "2025-06-11"
        (sign_agent_link "dev-secret-change-me" 7 "2025-06-10") = false) := by
  have hx : "x" ≠ sign_agent_link "dev-secret-change-me" 7 "2025-06-10" := by decide
  have hs : sign_agent_link "dev-secret-change-me" 2 "2025-06-11" ≠
      sign_agent_link "dev-secret-change-me" 7 "2025-06-10" := by decide
  exact ⟨⟨hx, C1_sign_verify.2.2.1 _ _ _ _ hx⟩,
    ⟨hs, C1_sign_verify.2.2.2.1 _ _ _ _ _ hs⟩⟩


/-! ## Shared list lemmas about event lookup -/

/-- `menuUpdate` never changes a row's date. -/
theorem menuUpdate_event_date (d : String) (menu : List String) (e : EventRow) :
    (menuUpdate d menu e).event_date = e.event_date := by
  unfold menuUpdate
  by_cases h : e.event_date = d <;> simp [h]

/-- Updating the menus of date-`d` rows rewrites the first date-`d` row the
lookup returns, and nothing else about it. -/
theorem find?_map_menuUpd (l : List EventRow) (d : String) (menu : List String) :
    (l.map (menuUpdate d menu)).find? (fun e => e.event_date == d)
      = (l.find? (fun e => e.event_date == d)).map
          (fun e => { e with menu := menu }) := by
  induction l with
  | nil => rfl
  | cons e t ih =>
    rw [List.map_cons]
    by_cases h : e.event_date = d
    · rw [List.find?_cons_of_pos _ (by simp [menuUpdate_event_date, h]),
        List.find?_cons_of_pos _ (by simp [h])]
      simp [menuUpdate, h]
    · rw [List.find?_cons_of_neg _ (by simp [menuUpdate_event_date, h]),
        List.find?_cons_of_neg _ (by simp [h]), ih]

/-- Updating the menus of date-`d` rows leaves lookups of any other date
unchanged. -/
theorem find?_map_menuUpd_other (l : List EventRow) (d d' : String) (hne : d' ≠ d)
    (menu : List String) :
    (l.map (menuUpdate d menu)).find? (fun e => e.event_date == d')
      = l.find? (fun e => e.event_date == d') := by
  induction l with
  | nil => rfl
  | cons e t ih =>
    rw [List.map_cons]
    by_cases h : e.event_date = d'
    · have hd : ¬ e.event_date = d := fun hx => hne (h ▸ hx ▸ rfl)
      rw [List.find?_cons_of_pos _ (by simp [menuUpdate_event_date, h]),
        List.find?_cons_of_pos _ (by simp [h])]
      simp [menuUpdate, hd]
    · rw [List.find?_cons_of_neg _ (by simp [menuUpdate_event_date, h]),
        List.find?_cons_of_neg _ (by simp [h]), ih]

/-! ## C8: menu resynchronization touches only the menu -/

/-- C8: `upsert_event_menu_preserve_open` changes only the event's menu: an
existing event keeps its id, date, `open` and `planned` flags exactly (only
`menu` is replaced); when no event exists for the date, a fresh row is
inserted with `open = true` and `planned = true`; lookups of every other
date, rows of other dates, and every other table are untouched. -/
theorem C8_upsert_menu_preserve_flags (db : DB) (d : String) (menu : List String) :
    (∀ e, get_event d db = some e →
        get_event d (upsert_event_menu_preserve_open d menu db) =
          some { e with menu := menu }) ∧
    (get_event d db = none →
        get_event d (upsert_event_menu_preserve_open d menu db) =
          some { id := db.nextEventId, event_date := d, menu := menu,
                 is_open := true, is_planned := true }) ∧
    (∀ d', d' ≠ d →
        get_event d' (upsert_event_menu_preserve_open d menu db) = get_event d' db) ∧
    (∀ e ∈ db.events, e.event_date ≠ d →
        e ∈ (upsert_event_menu_preserve_open d menu db).events) ∧
    (upsert_event_menu_preserve_open d menu db).agents = db.agents ∧
    (upsert_event_menu_preserve_open d menu db).shifts = db.shifts ∧
    (upsert_event_menu_preserve_open d menu db).offers = db.offers ∧
    (upsert_event_menu_preserve_open d menu db).reservations = db.reservations ∧
    (upsert_event_menu_preserve_open d menu db).reservation_lines =
      db.reservation_lines := by
  unfold upsert_event_menu_preserve_open get_event
  by_cases hany : db.events.any (fun e => e.event_date == d)
  · rw [if_pos hany]
    refine ⟨?_, ?_, ?_, ?_, rfl, rfl, rfl, rfl, rfl⟩
    · intro e he
      rw [find?_map_menuUpd, he]
      rfl
    · intro hnone
      rcases List.any_eq_true.mp hany with ⟨x, hx, hpx⟩
      exact absurd (List.find?_eq_none.mp hnone x hx) (by simp [hpx])
    · intro d' hd'
      exact find?_map_menuUpd_other db.events d d' hd' menu
    · intro e he hne
      exact List.mem_map.mpr ⟨e, he, by simp [menuUpdate, hne]⟩
  · rw [if_neg hany]
    have hnone : db.events.find? (fun e => e.event_date == d) = none := by
      rw [List.find?_eq_none]
      intro x hx hpx
      exact hany (List.any_eq_true.mpr ⟨x, hx, hpx⟩)
    refine ⟨?_, ?_, ?_, ?_, rfl, rfl, rfl, rfl, rfl⟩
    · intro e he
      rw [hnone] at he
      exact absurd he (by simp)
    · intro _
      show (db.events ++ [_]).find? _ = _
      rw [List.find?_append, hnone, Option.none_or,
        List.find?_cons_of_pos _ (by simp)]
    · intro d' hd'
      show (db.events ++ [_]).find? _ = _
      rw [List.find?_append,
        List.find?_cons_of_neg _ (by simp; exact fun hx => hd' hx.symm)]
      simp
    · intro e he _
      exact List.mem_append_left _ he


/-- Witness for `C8_upsert_menu_preserve_flags`: resynchronizing the menu of
an existing closed, unplanned event replaces the menu but leaves both flags
false, and does not disturb another date's event. -/
theorem C8_upsert_menu_preserve_flags_witness :
    (get_event "2025-06-10"
        (upsert_event_menu_preserve_open "2025-06-10" ["Pain"]
          { events := [{ id := 5, event_date := "2025-06-10", menu := ["Œufs"], is_open := false, is_planned := false }],
            agents := [], shifts := [], offers := [], reservations := [],
            reservation_lines := [], nextEventId := 6, nextOfferId := 1,
            nextReservationId := 1 }) =
      some { id := 5, event_date := "2025-06-10", menu := ["Pain"], is_open := false, is_planned := false }) ∧
    ("2025-06-11" ≠ "2025-06-10" ∧
      get_event "2025-06-11"
          (upsert_event_menu_preserve_open "2025-06-10" ["Pain"]
            { events := [{ id := 5, event_date := "2025-06-10", menu := ["Œufs"], is_open := false, is_planned := false }],
              agents := [], shifts := [], offers := [], reservations := [],
              reservation_lines := [], nextEventId := 6, nextOfferId := 1,
              nextReservationId := 1 }) =
        get_event "2025-06-11"
          { events := [{ id := 5, event_date := "2025-06-10", menu := ["Œufs"], is_open := false, is_planned := false }],
            agents := [], shifts := [], offers := [], reservations := [],
            reservation_lines := [], nextEventId := 6, nextOfferId := 1,
            nextReservationId := 1 }) := by
  refine ⟨(C8_upsert_menu_preserve_flags _ _ _).1
      { id := 5, event_date := "2025-06-10", menu := ["Œufs"], is_open := false, is_planned := false }
      (by decide),
    by decide, (C8_upsert_menu_preserve_flags _ _ _).2.2.1 "2025-06-11" (by decide)⟩

/-! ## Shared lemmas about the shift roster -/

/-- Membership after folding `shiftInsert`: a `(d, a)` pair is present iff it
was already in the accumulator or `a` is among the inserted ids. -/
theorem exists_mem_foldl_shiftInsert (d : String) (ids : List Int) (acc : List ShiftRow)
    (a : Int) :
    (∃ s ∈ ids.foldl (shiftInsert d) acc, s.shift_date = d ∧ s.agent_id = a) ↔
      (∃ s ∈ acc, s.shift_date = d ∧ s.agent_id = a) ∨ a ∈ ids := by
  induction ids generalizing acc with
  | nil => simp
  | cons aid rest ih =>
    rw [List.foldl_cons, ih]
    have hstep : (∃ s ∈ shiftInsert d acc aid, s.shift_date = d ∧ s.agent_id = a) ↔
        (∃ s ∈ acc, s.shift_date = d ∧ s.agent_id = a) ∨ a = aid := by
      unfold shiftInsert
      by_cases hany : acc.any (fun s => s.shift_date == d && s.agent_id == aid)
      · rw [if_pos hany]
        rcases List.any_eq_true.mp hany with ⟨s, hs, hps⟩
        simp only [Bool.and_eq_true, beq_iff_eq] at hps
        constructor
        · exact Or.inl
        · rintro (h | rfl)
          · exact h
          · exact ⟨s, hs, hps⟩
      · rw [if_neg hany]
        constructor
        · rintro ⟨s, hs, hP⟩
          rcases List.mem_append.mp hs with hs | hs
          · exact Or.inl ⟨s, hs, hP⟩
          · rw [List.mem_singleton] at hs
            subst hs
            exact Or.inr hP.2.symm
        · rintro (⟨s, hs, hP⟩ | rfl)
          · exact ⟨s, List.mem_append_left _ hs, hP⟩
          · exact ⟨_, List.mem_append_right _ (List.mem_singleton_self _), rfl, rfl⟩
    rw [hstep, List.mem_cons]
    exact or_assoc

/-- Folding `shiftInsert` for date `d` adds no row of any other date. -/
theorem foldl_shiftInsert_filter_other (d d' : String) (hne : d' ≠ d) (ids : List Int)
    (acc : List ShiftRow) :
    (ids.foldl (shiftInsert d) acc).filter (fun s => s.shift_date == d') =
      acc.filter (fun s => s.shift_date == d') := by
  induction ids generalizing acc with
  | nil => rfl
  | cons aid rest ih =>
    rw [List.foldl_cons, ih]
    unfold shiftInsert
    by_cases hany : acc.any (fun s => s.shift_date == d && s.agent_id == aid)
    · rw [if_pos hany]
    · rw [if_neg hany, List.filter_append]
      have h1 : ([({ shift_date := d, agent_id := aid } : ShiftRow)].filter
          (fun s => s.shift_date == d')) = [] := by
        simp
        exact fun hx => hne hx.symm
      rw [h1, List.append_nil]

/-- Filtering date `d'` commutes with having dropped date `d ≠ d'`. -/
theorem filter_other_of_kept (l : List ShiftRow) (d d' : String) (hne : d' ≠ d) :
    (l.filter (fun s => !(s.shift_date == d))).filter (fun s => s.shift_date == d') =
      l.filter (fun s => s.shift_date == d') := by
  induction l with
  | nil => rfl
  | cons s t ih =>
    by_cases h : s.shift_date = d
    · have h' : ¬ s.shift_date = d' := fun hx => hne (by rw [← hx, h])
      simp [List.filter_cons, h, h', ih, Ne.symm hne]
    · simp [List.filter_cons, h, ih]

/-- The rows kept by the delete step contain no date-`d` row. -/
theorem not_exists_kept (l : List ShiftRow) (d : String) (a : Int) :
    ¬ ∃ s ∈ l.filter (fun s => !(s.shift_date == d)),
        s.shift_date = d ∧ s.agent_id = a := by
  rintro ⟨s, hs, hd, _⟩
  have := List.of_mem_filter hs
  simp [hd] at this

/-- `list_working_agent_ids` membership, unfolded to the shifts table. -/
theorem mem_list_working_agent_ids (d : String) (db : DB) (a : Int) :
    a ∈ list_working_agent_ids d db ↔
      ∃ s ∈ db.shifts, s.shift_date = d ∧ s.agent_id = a := by
  unfold list_working_agent_ids
  simp only [List.mem_map, List.mem_filter, beq_iff_eq]
  constructor
  · rintro ⟨s, ⟨hs, hd⟩, ha⟩
    exact ⟨s, hs, hd, ha⟩
  · rintro ⟨s, hs, hd, ha⟩
    exact ⟨s, ⟨hs, hd⟩, ha⟩

/-! ## C9: saving the roster fully replaces the day's set -/

/-- C9: after saving `ids1` and then `ids2` for the same date, the working
set for that date is exactly the members of `ids2` (entries from `ids1` that
are not in `ids2` are gone), and the roster of every other date is exactly
what it was before both saves. -/
theorem C9_set_working_agents_replaces (db : DB) (d : String) (ids1 ids2 : List Int) :
    (∀ a : Int,
        a ∈ list_working_agent_ids d
            (set_working_agents_for_date d ids2
              (set_working_agents_for_date d ids1 db)) ↔ a ∈ ids2) ∧
    (∀ d', d' ≠ d →
        list_working_agent_ids d'
            (set_working_agents_for_date d ids2
              (set_working_agents_for_date d ids1 db)) =
          list_working_agent_ids d' db) := by
  constructor
  · intro a
    rw [mem_list_working_agent_ids]
    show (∃ s ∈ ids2.foldl (shiftInsert d) _, s.shift_date = d ∧ s.agent_id = a) ↔ _
    rw [exists_mem_foldl_shiftInsert]
    have hk := not_exists_kept
      (set_working_agents_for_date d ids1 db).shifts d a
    exact ⟨fun h => h.resolve_left hk, Or.inr⟩
  · intro d' hd'
    unfold list_working_agent_ids set_working_agents_for_date
    rw [foldl_shiftInsert_filter_other d d' hd', filter_other_of_kept _ d d' hd',
      foldl_shiftInsert_filter_other d d' hd', filter_other_of_kept _ d d' hd']

/-- Witness for `C9_set_working_agents_replaces`: saving `[1, 2]` then
`[2, 3]` for 2025-06-10 keeps agent 2, removes agent 1, and leaves the
2025-06-11 roster untouched. -/
theorem C9_set_working_agents_replaces_witness :
    (2 ∈ list_working_agent_ids "2025-06-10"
        (set_working_agents_for_date "2025-06-10" [2, 3]
          (set_working_agents_for_date "2025-06-10" [1, 2]
            { events := [], agents := [], shifts := [{ shift_date := "2025-06-11", agent_id := 9 }],
              offers := [], reservations := [], reservation_lines := [],
              nextEventId := 1, nextOfferId := 1, nextReservationId := 1 }))) ∧
    (2 : Int) ∈ ([2, 3] : List Int) ∧
    ¬ 1 ∈ list_working_agent_ids "2025-06-10"
        (set_working_agents_for_date "2025-06-10" [2, 3]
          (set_working_agents_for_date "2025-06-10" [1, 2]
            { events := [], agents := [], shifts := [{ shift_date := "2025-06-11", agent_id := 9 }],
              offers := [], reservations := [], reservation_lines := [],
              nextEventId := 1, nextOfferId := 1, nextReservationId := 1 })) ∧
    "2025-06-11" ≠ "2025-06-10" ∧
    list_working_agent_ids "2025-06-11"
        (set_working_agents_for_date "2025-06-10" [2, 3]
          (set_working_agents_for_date "2025-06-10" [1, 2]
            { events := [], agents := [], shifts := [{ shift_date := "2025-06-11", agent_id := 9 }],
              offers := [], reservations := [], reservation_lines := [],
              nextEventId := 1, nextOfferId := 1, nextReservationId := 1 })) = [9] := by
  refine ⟨(C9_set_working_agents_replaces _ _ _ _).1 2 |>.mpr (by decide), by decide,
    fun h => ?_, by decide, ?_⟩
  · exact absurd ((C9_set_working_agents_replaces _ _ _ _).1 1 |>.mp h) (by decide)
  · rw [(C9_set_working_agents_replaces _ _ _ _).2 "2025-06-11" (by decide)]
    decide


/-! ## Shared lemmas about the offer catalog -/

/-- Reactivation changes neither the date nor the type nor the recipe of a
row, so it preserves the C7 match predicate. -/
theorem mainOfferMatch_offerReactivate (d : String) (rid t m : Int) (o : OfferRow) :
    mainOfferMatch d rid (offerReactivate t m o) = mainOfferMatch d rid o := by
  unfold mainOfferMatch offerReactivate
  by_cases h : o.id = t <;> simp [h]

/-- Filtering the match predicate commutes with mapping the reactivation. -/
theorem filter_match_map_reactivate (l : List OfferRow) (d : String) (rid t m : Int) :
    (l.map (offerReactivate t m)).filter (mainOfferMatch d rid) =
      (l.filter (mainOfferMatch d rid)).map (offerReactivate t m) := by
  induction l with
  | nil => rfl
  | cons o rest ih =>
    rw [List.map_cons, List.filter_cons, List.filter_cons,
      mainOfferMatch_offerReactivate]
    by_cases h : mainOfferMatch d rid o
    · rw [if_pos (by simp [h]), if_pos (by simp [h]), List.map_cons, ih]
    · rw [if_neg (by simp [h]), if_neg (by simp [h]), ih]

/-- A member of a list of length at most one is the whole list. -/
theorem eq_singleton_of_mem_of_length_le_one {α : Type} {x : α} {l : List α}
    (hx : x ∈ l) (h : l.length ≤ 1) : l = [x] := by
  match l with
  | [] => cases hx
  | [y] => rw [List.mem_singleton.mp hx]
  | a :: b :: t => simp at h

/-- One call to `add_offer_main` on a store holding at most one matching row
leaves exactly one matching row, active and carrying the clamped cap. -/
theorem add_offer_main_normalizes (db : DB) (d : String) (rid c : Int)
    (h : (matchingMainOffers db d rid).length ≤ 1) :
    ∃ o : OfferRow, matchingMainOffers (add_offer_main d rid c db) d rid = [o] ∧
      o.is_active = true ∧ o.max_per_person = max 1 c := by
  unfold add_offer_main matchingMainOffers
  cases hf : db.offers.find? (mainOfferMatch d rid) with
  | none =>
    have hnil : db.offers.filter (mainOfferMatch d rid) = [] :=
      List.filter_eq_nil_iff.mpr (fun x hx => by
        simpa using List.find?_eq_none.mp hf x hx)
    have hfil : (db.offers ++
          [({ id := db.nextOfferId, offer_date := d, offer_type := .MAIN,
              recipe_id := some rid, food_id := none,
              max_per_person := max 1 c, is_active := true } : OfferRow)]).filter
          (mainOfferMatch d rid) =
        [({ id := db.nextOfferId, offer_date := d, offer_type := .MAIN,
            recipe_id := some rid, food_id := none,
            max_per_person := max 1 c, is_active := true } : OfferRow)] := by
      rw [List.filter_append, hnil, List.nil_append, List.filter_cons,
        if_pos (by simp [mainOfferMatch]), List.filter_nil]
    exact ⟨_, hfil, rfl, rfl⟩
  | some row =>
    have hp := List.find?_some hf
    have hmem : row ∈ db.offers.filter (mainOfferMatch d rid) :=
      List.mem_filter.mpr ⟨List.mem_of_find?_eq_some hf, hp⟩
    have hsing : db.offers.filter (mainOfferMatch d rid) = [row] :=
      eq_singleton_of_mem_of_length_le_one hmem h
    refine ⟨offerReactivate row.id (max 1 c) row, ?_, ?_, ?_⟩
    · rw [filter_match_map_reactivate, hsing, List.map_cons, List.map_nil]
    · unfold offerReactivate
      rw [if_pos (by simp)]
    · unfold offerReactivate
      rw [if_pos (by simp)]

/-- When a matching row already exists, `add_offer_main` takes the `UPDATE`
branch and inserts nothing: the table length is unchanged. -/
theorem add_offer_main_keeps_length (db : DB) (d : String) (rid c : Int)
    (h : matchingMainOffers db d rid ≠ []) :
    (add_offer_main d rid c db).offers.length = db.offers.length := by
  unfold add_offer_main
  cases hf : db.offers.find? (mainOfferMatch d rid) with
  | none =>
    exact absurd (List.filter_eq_nil_iff.mpr (fun x hx => by
      simpa using List.find?_eq_none.mp hf x hx)) h
  | some row => simp

/-! ## C7: re-adding a main offer reactivates instead of duplicating -/

/-- C7: starting from a store with at most one `(date, MAIN, recipe)` offer
row (the invariant the operation itself maintains), calling `add_offer_main`
twice leaves exactly one matching row; it is active, its cap is the second
call's cap clamped to ≥ 1, and the second call inserts no row (the offers
table does not grow). -/
theorem C7_add_offer_main_idempotent (db : DB) (d : String) (rid c1 c2 : Int)
    (h : (matchingMainOffers db d rid).length ≤ 1) :
    (matchingMainOffers (add_offer_main d rid c2 (add_offer_main d rid c1 db)) d rid).length
        = 1 ∧
    (∀ o ∈ matchingMainOffers (add_offer_main d rid c2 (add_offer_main d rid c1 db)) d rid,
        o.is_active = true ∧ o.max_per_person = max 1 c2) ∧
    (add_offer_main d rid c2 (add_offer_main d rid c1 db)).offers.length =
      (add_offer_main d rid c1 db).offers.length := by
  obtain ⟨o1, ho1, _, _⟩ := add_offer_main_normalizes db d rid c1 h
  have h1 : (matchingMainOffers (add_offer_main d rid c1 db) d rid).length ≤ 1 := by
    rw [ho1]; exact le_refl 1
  obtain ⟨o2, ho2, hact, hcap⟩ :=
    add_offer_main_normalizes (add_offer_main d rid c1 db) d rid c2 h1
  refine ⟨by rw [ho2]; rfl, ?_, ?_⟩
  · intro o ho
    rw [ho2, List.mem_singleton] at ho
    rw [ho]
    exact ⟨hact, hcap⟩
  · exact add_offer_main_keeps_length _ d rid c2 (by rw [ho1]; simp)

/-- Witness for `C7_add_offer_main_idempotent`: adding `(2025-06-10, recipe 5)`
with cap 0 then cap 3 to an empty store yields one active matching row with
cap 3. -/
theorem C7_add_offer_main_idempotent_witness :
    ((matchingMainOffers
        { events := [], agents := [], shifts := [], offers := [],
          reservations := [], reservation_lines := [],
          nextEventId := 1, nextOfferId := 1, nextReservationId := 1 }
        "2025-06-10" 5).length ≤ 1) ∧
    ((matchingMainOffers (add_offer_main "2025-06-10" 5 3 (add_offer_main "2025-06-10" 5 0
        { events := [], agents := [], shifts := [], offers := [],
          reservations := [], reservation_lines := [],
          nextEventId := 1, nextOfferId := 1, nextReservationId := 1 }))
        "2025-06-10" 5).length = 1 ∧
      (∀ o ∈ matchingMainOffers (add_offer_main "2025-06-10" 5 3 (add_offer_main "2025-06-10" 5 0
          { events := [], agents := [], shifts := [], offers := [],
            reservations := [], reservation_lines := [],
            nextEventId := 1, nextOfferId := 1, nextReservationId := 1 }))
          "2025-06-10" 5,
          o.is_active = true ∧ o.max_per_person = max 1 3) ∧
      (add_offer_main "2025-06-10" 5 3 (add_offer_main "2025-06-10" 5 0
          { events := [], agents := [], shifts := [], offers := [],
            reservations := [], reservation_lines := [],
            nextEventId := 1, nextOfferId := 1, nextReservationId := 1 })).offers.length =
        (add_offer_main "2025-06-10" 5 0
          { events := [], agents := [], shifts := [], offers := [],
            reservations := [], reservation_lines := [],
            nextEventId := 1, nextOfferId := 1, nextReservationId := 1 }).offers.length) :=
  ⟨by decide, C7_add_offer_main_idempotent _ "2025-06-10" 5 0 3 (by decide)⟩


/-! ## Shared lemmas about the reservation handlers -/

/-- If the event for a date exists, `ensure_event_for_date` is the identity. -/
theorem ensure_event_noop {d : String} {db : DB} (ev : EventRow) (menu : List String)
    (h : get_event d db = some ev) :
    ensure_event_for_date d menu db = db := by
  unfold ensure_event_for_date
  rw [if_pos (List.any_eq_true.mpr
    ⟨ev, List.mem_of_find?_eq_some h, List.find?_some h⟩)]

/-! ## C4: an unplanned day rejects every submission -/

/-- C4: when the event of the target date exists with `planned = false`,
every `POST /reserve` submission is rejected — whatever the offers, the
roster, the token or the form contents — and the store is completely
untouched (in particular no reservation row and no line is written).  The
router version reports the dedicated `not_planned` message; the handler
registered on the live app reports its combined closed-or-not-planned
message. -/
theorem C4_not_planned_rejects_all (vrf : Int → String → String → Bool)
    (d : String) (menu : List String) (form : Form) (db : DB) (ev : EventRow)
    (hev : get_event d db = some ev) (hpl : ev.is_planned = false) :
    reservePublic vrf d menu form db = (.notPlanned, db) ∧
    reserveMainApp vrf d menu form db = (.closedOrNotPlanned, db) ∧
    (reservePublic vrf d menu form db).2.reservations = db.reservations ∧
    (reservePublic vrf d menu form db).2.reservation_lines = db.reservation_lines := by
  have hens := ensure_event_noop ev menu hev
  have h1 : reservePublic vrf d menu form db = (.notPlanned, db) := by
    unfold reservePublic
    rw [hens]
    simp [hev, hpl]
  have h2 : reserveMainApp vrf d menu form db = (.closedOrNotPlanned, db) := by
    unfold reserveMainApp
    rw [hens]
    simp [hev, hpl]
  exact ⟨h1, h2, by rw [h1], by rw [h1]⟩

/-- Witness for `C4_not_planned_rejects_all`: a concrete unplanned day with
offers, a roster and a fully populated form is still rejected with the store
unchanged. -/
theorem C4_not_planned_rejects_all_witness :
    get_event "2025-06-10"
        { events := [{ id := 1, event_date := "2025-06-10", menu := ["Œufs"], is_open := true, is_planned := false }],
          agents := [{ id := 7, name := "Sam", phone := "06", whatsapp_optin := true, is_active := true }],
          shifts := [{ shift_date := "2025-06-10", agent_id := 7 }],
          offers := [{ id := 1, offer_date := "2025-06-10", offer_type := .SIDE, recipe_id := none, food_id := some 3, max_per_person := 2, is_active := true }],
          reservations := [], reservation_lines := [],
          nextEventId := 2, nextOfferId := 2, nextReservationId := 1 } =
      some { id := 1, event_date := "2025-06-10", menu := ["Œufs"], is_open := true, is_planned := false } ∧
    reservePublic (fun _ _ _ => true) "2025-06-10" ["Œufs"]
        { fields := [("agent", "7"), ("d", "2025-06-10"), ("k", "tok"), ("offer_1", "2"), ("bring", "jus")] }
        { events := [{ id := 1, event_date := "2025-06-10", menu := ["Œufs"], is_open := true, is_planned := false }],
          agents := [{ id := 7, name := "Sam", phone := "06", whatsapp_optin := true, is_active := true }],
          shifts := [{ shift_date := "2025-06-10", agent_id := 7 }],
          offers := [{ id := 1, offer_date := "2025-06-10", offer_type := .SIDE, recipe_id := none, food_id := some 3, max_per_person := 2, is_active := true }],
          reservations := [], reservation_lines := [],
          nextEventId := 2, nextOfferId := 2, nextReservationId := 1 } =
      (.notPlanned,
        { events := [{ id := 1, event_date := "2025-06-10", menu := ["Œufs"], is_open := true, is_planned := false }],
          agents := [{ id := 7, name := "Sam", phone := "06", whatsapp_optin := true, is_active := true }],
          shifts := [{ shift_date := "2025-06-10", agent_id := 7 }],
          offers := [{ id := 1, offer_date := "2025-06-10", offer_type := .SIDE, recipe_id := none, food_id := some 3, max_per_person := 2, is_active := true }],
          reservations := [], reservation_lines := [],
          nextEventId := 2, nextOfferId := 2, nextReservationId := 1 }) ∧
    reserveMainApp (fun _ _ _ => true) "2025-06-10" ["Œufs"]
        { fields := [("agent", "7"), ("d", "2025-06-10"), ("k", "tok"), ("offer_1", "2"), ("bring", "jus")] }
        { events := [{ id := 1, event_date := "2025-06-10", menu := ["Œufs"], is_open := true, is_planned := false }],
          agents := [{ id := 7, name := "Sam", phone := "06", whatsapp_optin := true, is_active := true }],
          shifts := [{ shift_date := "2025-06-10", agent_id := 7 }],
          offers := [{ id := 1, offer_date := "2025-06-10", offer_type := .SIDE, recipe_id := none, food_id := some 3, max_per_person := 2, is_active := true }],
          reservations := [], reservation_lines := [],
          nextEventId := 2, nextOfferId := 2, nextReservationId := 1 } =
      (.closedOrNotPlanned,
        { events := [{ id := 1, event_date := "2025-06-10", menu := ["Œufs"], is_open := true, is_planned := false }],
          agents := [{ id := 7, name := "Sam", phone := "06", whatsapp_optin := true, is_active := true }],
          shifts := [{ shift_date := "2025-06-10", agent_id := 7 }],
          offers := [{ id := 1, offer_date := "2025-06-10", offer_type := .SIDE, recipe_id := none, food_id := some 3, max_per_person := 2, is_active := true }],
          reservations := [], reservation_lines := [],
          nextEventId := 2, nextOfferId := 2, nextReservationId := 1 }) := by
  refine ⟨by decide, ?_, ?_⟩
  · exact (C4_not_planned_rejects_all _ _ _ _ _
      { id := 1, event_date := "2025-06-10", menu := ["Œufs"], is_open := true, is_planned := false }
      (by decide) (by decide)).1
  · exact (C4_not_planned_rejects_all _ _ _ _ _
      { id := 1, event_date := "2025-06-10", menu := ["Œufs"], is_open := true, is_planned := false }
      (by decide) (by decide)).2.1


/-- A security failure short-circuits the whole tail: the outcome is the
`resolveAgent` error and the store is untouched. -/
theorem reserveCore_error_of_resolve {vrf : Int → String → String → Bool}
    {d : String} {form : Form} {db : DB} {out : ReserveOutcome} (ev : EventRow)
    (hres : resolveAgent vrf d form db = .error out) :
    reserveCore vrf d ev form db = (out, db) := by
  unfold reserveCore
  rw [hres]

/-- A duplicate reservation short-circuits with `already`, store untouched. -/
theorem reserveCore_already_of_dup {vrf : Int → String → String → Bool}
    {d : String} {form : Form} {db : DB} {agent : AgentRow} (ev : EventRow)
    (hres : resolveAgent vrf d form db = .ok agent)
    (hdup : reservation_exists_for_event ev.id agent.name db = true) :
    reserveCore vrf d ev form db = (.already, db) := by
  unfold reserveCore
  rw [hres]
  simp [hdup]

/-- With no offer rows for the date the submission fails with `no_offers`,
store untouched. -/
theorem reserveCore_noOffers {vrf : Int → String → String → Bool}
    {d : String} {form : Form} {db : DB} {agent : AgentRow} (ev : EventRow)
    (hres : resolveAgent vrf d form db = .ok agent)
    (hdup : reservation_exists_for_event ev.id agent.name db = false)
    (hoff : list_offers_for_date d db = []) :
    reserveCore vrf d ev form db = (.noOffers, db) := by
  unfold reserveCore
  rw [hres]
  simp [hdup, hoff]

/-- When every gate passes, the handler persists: the reservation row is
created and, when the validated line set is non-empty, its lines are written. -/
theorem reserveCore_success_shape {vrf : Int → String → String → Bool}
    {d : String} {form : Form} {db : DB} {agent : AgentRow} {mains : List (Int × Int)}
    (ev : EventRow)
    (hres : resolveAgent vrf d form db = .ok agent)
    (hdup : reservation_exists_for_event ev.id agent.name db = false)
    (hoff : ¬ list_offers_for_date d db = [])
    (hmain : mainLineOf form (offersById (list_offers_for_date d db)) = .ok mains)
    (hcnt : mainCount (offersById (list_offers_for_date d db))
        (mains ++ sideLinesOf form (offersById (list_offers_for_date d db))) ≤ 1)
    (hne : ¬(mains ++ sideLinesOf form (offersById (list_offers_for_date d db)) = [] ∧
        pyStrip ((form.get "bring").getD "") = "")) :
    reserveCore vrf d ev form db =
      (.success,
        (if mains ++ sideLinesOf form (offersById (list_offers_for_date d db)) = [] then
          (create_reservation ev.id agent.name (pyStrip ((form.get "bring").getD "")) db).2
        else
          set_reservation_lines
            (create_reservation ev.id agent.name (pyStrip ((form.get "bring").getD "")) db).1
            (mains ++ sideLinesOf form (offersById (list_offers_for_date d db)))
            (create_reservation ev.id agent.name (pyStrip ((form.get "bring").getD "")) db).2)) := by
  unfold reserveCore
  rw [hres]
  simp only [hdup, Bool.false_eq_true, if_false, if_neg hoff, hmain,
    Nat.not_lt.mpr hcnt]
  rw [if_neg (by simp only [Bool.and_eq_true, decide_eq_true_eq]; exact hne)]

/-- Whatever happens, the handler never touches the events, agents, shifts or
offers tables. -/
theorem reserveCore_frame (vrf : Int → String → String → Bool) (d : String)
    (ev : EventRow) (form : Form) (db : DB) :
    (reserveCore vrf d ev form db).2.events = db.events ∧
    (reserveCore vrf d ev form db).2.agents = db.agents ∧
    (reserveCore vrf d ev form db).2.shifts = db.shifts ∧
    (reserveCore vrf d ev form db).2.offers = db.offers := by
  simp only [reserveCore]
  repeat' split
  all_goals simp [create_reservation, set_reservation_lines]

/-- The security pipeline reads only the shifts and agents tables. -/
theorem resolveAgent_congr (vrf : Int → String → String → Bool) (d : String)
    (form : Form) {db db' : DB} (hsh : db'.shifts = db.shifts)
    (hag : db'.agents = db.agents) :
    resolveAgent vrf d form db' = resolveAgent vrf d form db := by
  unfold resolveAgent list_working_agent_ids
  rw [hsh, hag]

/-- Event lookup reads only the events table. -/
theorem get_event_congr (d : String) {db db' : DB} (hev : db'.events = db.events) :
    get_event d db' = get_event d db := by
  unfold get_event
  rw [hev]

/-- With an empty `main_choice`-less form field the main branch contributes
no line. -/
theorem mainLineOf_none {form : Form} (ob : Int → Option OfferRow)
    (hmc : form.get "main_choice" = none) : mainLineOf form ob = .ok [] := by
  unfold mainLineOf
  rw [hmc]

/-- A side entry only survives when its offer resolves to an active SIDE
offer. -/
theorem sideLineOfEntry_side {ob : Int → Option OfferRow} {kv : String × String}
    {p : Int × Int} (h : sideLineOfEntry ob kv = some p) :
    ∃ o, ob p.1 = some o ∧ o.offer_type = OfferType.SIDE ∧ o.is_active = true := by
  unfold sideLineOfEntry at h
  by_cases hpre : strStartsWith kv.1 "offer_"
  · rw [if_neg (by simp [hpre])] at h
    cases h1 : parseInt (strDrop kv.1 6) with
    | none =>
      cases h2 : parseInt kv.2 <;> rw [h1, h2] at h <;> exact absurd h (by simp)
    | some oid =>
      cases h2 : parseInt kv.2 with
      | none => rw [h1, h2] at h; exact absurd h (by simp)
      | some q =>
        rw [h1, h2] at h
        dsimp only [] at h
        by_cases hq : q ≤ 0
        · rw [if_pos hq] at h
          exact absurd h (by simp)
        · rw [if_neg hq] at h
          cases hob : ob oid with
          | none => rw [hob] at h; exact absurd h (by simp)
          | some o =>
            rw [hob] at h
            dsimp only [] at h
            by_cases hcond : (!(o.offer_type == OfferType.SIDE) || !o.is_active) = true
            · rw [if_pos hcond] at h
              exact absurd h (by simp)
            · rw [if_neg hcond] at h
              simp only [Option.some.injEq] at h
              simp only [Bool.or_eq_true, Bool.not_eq_true', beq_eq_false_iff_ne,
                not_or, Bool.not_eq_false] at hcond
              refine ⟨o, ?_, ?_, hcond.2⟩
              · have hp1 : p.1 = oid := by rw [← h]
                rw [hp1, hob]
              · by_contra hne
                exact hcond.1 (by simpa using hne)
  · rw [if_pos (by simp [hpre])] at h
    exact absurd h (by simp)

/-- Side lines never count as MAIN lines. -/
theorem mainCount_sideLinesOf (form : Form) (ob : Int → Option OfferRow) :
    mainCount ob (sideLinesOf form ob) = 0 := by
  unfold mainCount
  rw [List.length_eq_zero]
  rw [List.filter_eq_nil_iff]
  intro p hp
  obtain ⟨kv, _, hkv⟩ := List.mem_filterMap.mp hp
  obtain ⟨o, ho, hside, _⟩ := sideLineOfEntry_side hkv
  simp [ho, hside]

/-- The main branch contributes at most one line. -/
theorem mainLineOf_ok_length {form : Form} {ob : Int → Option OfferRow}
    {mains : List (Int × Int)} (h : mainLineOf form ob = .ok mains) :
    mains.length ≤ 1 := by
  unfold mainLineOf at h
  repeat' split at h
  all_goals (try simp_all)
  all_goals (rw [← h]; simp)

/-- `mainCount` adds over concatenation. -/
theorem mainCount_append (ob : Int → Option OfferRow) (l1 l2 : List (Int × Int)) :
    mainCount ob (l1 ++ l2) = mainCount ob l1 + mainCount ob l2 := by
  unfold mainCount
  rw [List.filter_append, List.length_append]

/-- The validated line set of any submission holds at most one MAIN line. -/
theorem mainCount_lines_le_one {form : Form} {ob : Int → Option OfferRow}
    {mains : List (Int × Int)} (h : mainLineOf form ob = .ok mains) :
    mainCount ob (mains ++ sideLinesOf form ob) ≤ 1 := by
  rw [mainCount_append, mainCount_sideLinesOf form ob]
  calc mainCount ob mains + 0 ≤ mains.length := by
        rw [Nat.add_zero]
        exact List.length_filter_le _ _
    _ ≤ 1 := mainLineOf_ok_length h


/-- An inactive agent is never in the WhatsApp link-sending list. -/
theorem not_mem_working_agents_of_inactive {agent : AgentRow} (d : String) (db : DB)
    (hinact : agent.is_active = false) :
    agent ∉ list_working_agents_for_date d db := by
  intro hmem
  have := List.of_mem_filter hmem
  simp [hinact] at this

/-! ## C10: the reservation flow ignores the Agent.active flag -/

/-- C10: the roster check (`list_working_agent_ids`) carries no
`is_active` filter and the canonical-name lookup runs over
`list_agents(active_only=False)`, so a deactivated agent who is still on the
saved roster and presents a valid signed link reserves successfully — a
reservation row is persisted under their canonical name — even though the
same agent is excluded from the link-sending list
(`list_working_agents_for_date`), which filters on `is_active`.  (The
hypotheses require the link gates to pass — `resolveAgent` succeeding for an
`agent` row with `is_active = false` is precisely what the roster check and
name lookup ignoring the flag make possible — plus a planned open event, no
prior duplicate, at least one offer, no main selection and a non-empty
"bring" note.) -/
theorem C10_inactive_agent_reserves (vrf : Int → String → String → Bool)
    (d : String) (menu : List String) (form : Form) (db : DB) (ev : EventRow)
    (agent : AgentRow)
    (hev : get_event d db = some ev) (hpl : ev.is_planned = true)
    (hop : ev.is_open = true)
    (hres : resolveAgent vrf d form db = .ok agent)
    (hinact : agent.is_active = false)
    (hdup : reservation_exists_for_event ev.id agent.name db = false)
    (hoff : ¬ list_offers_for_date d db = [])
    (hmc : form.get "main_choice" = none)
    (hbring : ¬ pyStrip ((form.get "bring").getD "") = "") :
    (reservePublic vrf d menu form db).1 = .success ∧
    (∃ r ∈ (reservePublic vrf d menu form db).2.reservations,
        r.event_id = ev.id ∧ r.name = pyStrip agent.name) ∧
    agent ∉ list_working_agents_for_date d db := by
  have hens := ensure_event_noop ev menu hev
  have hmain : mainLineOf form (offersById (list_offers_for_date d db)) = .ok [] :=
    mainLineOf_none _ hmc
  have hshape := reserveCore_success_shape ev hres hdup hoff hmain
    (mainCount_lines_le_one hmain) (fun hx => hbring hx.2)
  have hpub : reservePublic vrf d menu form db = reserveCore vrf d ev form db := by
    unfold reservePublic
    rw [hens]
    simp [hev, hpl, hop]
  rw [hpub, hshape]
  refine ⟨rfl, ?_, not_mem_working_agents_of_inactive d db hinact⟩
  have hresv : (if ([] : List (Int × Int)) ++
      sideLinesOf form (offersById (list_offers_for_date d db)) = [] then
        (create_reservation ev.id agent.name (pyStrip ((form.get "bring").getD "")) db).2
      else
        set_reservation_lines
          (create_reservation ev.id agent.name (pyStrip ((form.get "bring").getD "")) db).1
          (([] : List (Int × Int)) ++ sideLinesOf form (offersById (list_offers_for_date d db)))
          (create_reservation ev.id agent.name (pyStrip ((form.get "bring").getD "")) db).2).reservations
      = db.reservations ++
        [{ id := db.nextReservationId, event_id := ev.id, name := pyStrip agent.name,
           bring := pyStrip (pyStrip ((form.get "bring").getD "")) }] := by
    split <;> simp [create_reservation, set_reservation_lines]
  refine ⟨{ id := db.nextReservationId, event_id := ev.id, name := pyStrip agent.name, bring := pyStrip (pyStrip ((form.get "bring").getD "")) }, ?_, rfl, rfl⟩
  rw [hresv]
  exact List.mem_append_right _ (by simp)

set_option maxRecDepth 100000 in
set_option maxHeartbeats 4000000 in
/-- Witness for `C10_inactive_agent_reserves`: agent 7 is deactivated but on
the 2025-06-10 roster; with the genuine HMAC verifier and the real token for
`(7, 2025-06-10)` under the default secret, the reservation succeeds while
agent 7 is absent from the link-sending list. -/
theorem C10_inactive_agent_reserves_witness :
    ((reservePublic (verify_agent_link "dev-secret-change-me") "2025-06-10" ["Œufs"]
        { fields := [("agent", "7"), ("d", "2025-06-10"),
            ("k", "487675016071322541efe1342342c3c177fc35fa72713be1a3e45be6e52e9a11"),
            ("bring", "jus")] }
        { events := [{ id := 1, event_date := "2025-06-10", menu := ["Œufs"], is_open := true, is_planned := true }],
          agents := [{ id := 7, name := "Sam", phone := "06", whatsapp_optin := true, is_active := false }],
          shifts := [{ shift_date := "2025-06-10", agent_id := 7 }],
          offers := [{ id := 1, offer_date := "2025-06-10", offer_type := .SIDE, recipe_id := none, food_id := some 3, max_per_person := 2, is_active := true }],
          reservations := [], reservation_lines := [],
          nextEventId := 2, nextOfferId := 2, nextReservationId := 1 }).1 = .success) ∧
    (∃ r ∈ (reservePublic (verify_agent_link "dev-secret-change-me") "2025-06-10" ["Œufs"]
        { fields := [("agent", "7"), ("d", "2025-06-10"),
            ("k", "487675016071322541efe1342342c3c177fc35fa72713be1a3e45be6e52e9a11"),
            ("bring", "jus")] }
        { events := [{ id := 1, event_date := "2025-06-10", menu := ["Œufs"], is_open := true, is_planned := true }],
          agents := [{ id := 7, name := "Sam", phone := "06", whatsapp_optin := true, is_active := false }],
          shifts := [{ shift_date := "2025-06-10", agent_id := 7 }],
          offers := [{ id := 1, offer_date := "2025-06-10", offer_type := .SIDE, recipe_id := none, food_id := some 3, max_per_person := 2, is_active := true }],
          reservations := [], reservation_lines := [],
          nextEventId := 2, nextOfferId := 2, nextReservationId := 1 }).2.reservations,
        r.event_id = 1 ∧ r.name = pyStrip "Sam") ∧
    ({ id := 7, name := "Sam", phone := "06", whatsapp_optin := true, is_active := false } : AgentRow)
      ∉ list_working_agents_for_date "2025-06-10"
        { events := [{ id := 1, event_date := "2025-06-10", menu := ["Œufs"], is_open := true, is_planned := true }],
          agents := [{ id := 7, name := "Sam", phone := "06", whatsapp_optin := true, is_active := false }],
          shifts := [{ shift_date := "2025-06-10", agent_id := 7 }],
          offers := [{ id := 1, offer_date := "2025-06-10", offer_type := .SIDE, recipe_id := none, food_id := some 3, max_per_person := 2, is_active := true }],
          reservations := [], reservation_lines := [],
          nextEventId := 2, nextOfferId := 2, nextReservationId := 1 } := by
  have h := C10_inactive_agent_reserves (verify_agent_link "dev-secret-change-me")
    "2025-06-10" ["Œufs"]
    { fields := [("agent", "7"), ("d", "2025-06-10"),
        ("k", "487675016071322541efe1342342c3c177fc35fa72713be1a3e45be6e52e9a11"),
        ("bring", "jus")] }
    { events := [{ id := 1, event_date := "2025-06-10", menu := ["Œufs"], is_open := true, is_planned := true }],
      agents := [{ id := 7, name := "Sam", phone := "06", whatsapp_optin := true, is_active := false }],
      shifts := [{ shift_date := "2025-06-10", agent_id := 7 }],
      offers := [{ id := 1, offer_date := "2025-06-10", offer_type := .SIDE, recipe_id := none, food_id := some 3, max_per_person := 2, is_active := true }],
      reservations := [], reservation_lines := [],
      nextEventId := 2, nextOfferId := 2, nextReservationId := 1 }
    { id := 1, event_date := "2025-06-10", menu := ["Œufs"], is_open := true, is_planned := true }
    { id := 7, name := "Sam", phone := "06", whatsapp_optin := true, is_active := false }
    (by decide) (by decide) (by decide) (by decide) (by decide) (by decide)
    (by decide) (by decide) (by decide)
  exact ⟨h.1, h.2.1, h.2.2⟩


/-! ## Shared lemmas for the single-MAIN invariant -/

/-- In a table with pairwise-distinct ids, looking a member row up by its own
id finds exactly that row. -/
theorem find?_id_eq_of_nodup (l : List OfferRow)
    (hnd : (l.map (fun o => o.id)).Nodup) {o : OfferRow} (ho : o ∈ l) :
    l.find? (fun x => x.id == o.id) = some o := by
  induction l with
  | nil => cases ho
  | cons a t ih =>
    rcases List.mem_cons.mp ho with rfl | hot
    · rw [List.find?_cons_of_pos _ (by simp)]
    · rw [List.map_cons] at hnd
      have hnd' := List.nodup_cons.mp hnd
      by_cases hax : a.id = o.id
      · have hmem : o.id ∈ t.map (fun o => o.id) := List.mem_map_of_mem _ hot
        rw [← hax] at hmem
        exact absurd hmem hnd'.1
      · rw [List.find?_cons_of_neg _ (by simp [hax]), ih hnd'.2 hot]

/-- `offerIsMain` reads only the offers table. -/
theorem offerIsMain_congr {db db' : DB} (h : db'.offers = db.offers) (oid : Int) :
    offerIsMain db' oid = offerIsMain db oid := by
  unfold offerIsMain
  rw [h]

/-- `mainLinesFor` reads only the lines and offers tables. -/
theorem mainLinesFor_congr {db db' : DB} (ho : db'.offers = db.offers)
    (hl : db'.reservation_lines = db.reservation_lines) (rid : Int) :
    mainLinesFor db' rid = mainLinesFor db rid := by
  unfold mainLinesFor
  rw [hl]
  congr 1
  apply List.filter_congr
  intro l _
  rw [offerIsMain_congr ho]

/-- A line built by the side loop never references a MAIN offer: its offer id
resolves (through the per-date dictionary) to a SIDE row, and with distinct
offer ids the global lookup agrees. -/
theorem offerIsMain_of_side_line (db : DB) (d : String) (hnodup : OfferIdsNodup db)
    {oid : Int} {o : OfferRow}
    (h : offersById (list_offers_for_date d db) oid = some o)
    (hside : o.offer_type = OfferType.SIDE) :
    offerIsMain db oid = false := by
  have hmem : o ∈ list_offers_for_date d db :=
    List.mem_reverse.mp (List.mem_of_find?_eq_some h)
  have hid : o.id = oid := by simpa using List.find?_some h
  have hfind := find?_id_eq_of_nodup db.offers hnodup (List.mem_of_mem_filter hmem)
  unfold offerIsMain
  rw [← hid, hfind]
  simp [hside]

/-- Case analysis of the store a handler call leaves behind: untouched, or
the persisted shape of a successful submission. -/
theorem reserveCore_db_cases (vrf : Int → String → String → Bool) (d : String)
    (ev : EventRow) (form : Form) (db : DB) :
    (reserveCore vrf d ev form db).2 = db ∨
    ∃ (agent : AgentRow) (mains : List (Int × Int)),
      mainLineOf form (offersById (list_offers_for_date d db)) = .ok mains ∧
      (reserveCore vrf d ev form db).2 =
        (if mains ++ sideLinesOf form (offersById (list_offers_for_date d db)) = [] then
          (create_reservation ev.id agent.name (pyStrip ((form.get "bring").getD "")) db).2
        else
          set_reservation_lines
            (create_reservation ev.id agent.name (pyStrip ((form.get "bring").getD "")) db).1
            (mains ++ sideLinesOf form (offersById (list_offers_for_date d db)))
            (create_reservation ev.id agent.name (pyStrip ((form.get "bring").getD "")) db).2) := by
  simp only [reserveCore]
  split
  · exact Or.inl rfl
  next x1 agent heqa =>
    split
    · exact Or.inl rfl
    · split
      · exact Or.inl rfl
      · split
        · exact Or.inl rfl
        next x2 mains heqm =>
          split
          · exact Or.inl rfl
          · split
            · exact Or.inl rfl
            · exact Or.inr ⟨agent, mains, heqm, rfl⟩

/-- A successful call preserves the single-MAIN storage invariant. -/
theorem reserveCore_preserves_AtMostOneMain (vrf : Int → String → String → Bool)
    (d : String) (ev : EventRow) (form : Form) (db : DB)
    (hnodup : OfferIdsNodup db) (hfresh : ReservationIdsFresh db)
    (hinv : AtMostOneMain db) :
    AtMostOneMain (reserveCore vrf d ev form db).2 := by
  rcases reserveCore_db_cases vrf d ev form db with hcase | ⟨agent, mains, hmain, hcase⟩
  · rw [hcase]
    exact hinv
  rw [hcase]
  set ob := offersById (list_offers_for_date d db) with hob
  set ls := mains ++ sideLinesOf form ob with hls
  set nrid := db.nextReservationId with hnrid
  set bring := pyStrip ((form.get "bring").getD "") with hbring
  set db' := (if ls = [] then (create_reservation ev.id agent.name bring db).2
    else set_reservation_lines (create_reservation ev.id agent.name bring db).1 ls
      (create_reservation ev.id agent.name bring db).2) with hdb'
  have hoffers : db'.offers = db.offers := by
    rw [hdb']
    split <;> simp [create_reservation, set_reservation_lines]
  have hresv : db'.reservations = db.reservations ++
      [{ id := nrid, event_id := ev.id, name := pyStrip agent.name,
         bring := pyStrip bring }] := by
    rw [hdb']
    split <;> simp [create_reservation, set_reservation_lines]
  have hlines : db'.reservation_lines =
      (if ls = [] then db.reservation_lines else
        db.reservation_lines.filter (fun l => !(l.reservation_id == nrid)) ++
          ls.map (fun p => { reservation_id := nrid, offer_id := p.1, qty := p.2 })) := by
    rw [hdb']
    split
    next h => simp [create_reservation, h]
    next h => simp [create_reservation, set_reservation_lines, h]
  have hkeep : db.reservation_lines.filter (fun l => !(l.reservation_id == nrid)) =
      db.reservation_lines := by
    apply List.filter_eq_self.mpr
    intro l hl
    simp [Int.ne_of_lt (hfresh.2 l hl)]
  intro r hr
  rw [hresv] at hr
  rcases List.mem_append.mp hr with hr | hr
  · -- a pre-existing reservation keeps its stored lines
    have hrid : r.id < nrid := hfresh.1 r hr
    have hcount : mainLinesFor db' r.id = mainLinesFor db r.id := by
      unfold mainLinesFor
      rw [hlines]
      split
      · congr 1
        apply List.filter_congr
        intro l _
        rw [offerIsMain_congr hoffers]
      · rw [hkeep, List.filter_append]
        have hnew : (ls.map (fun p =>
            ({ reservation_id := nrid, offer_id := p.1, qty := p.2 } : LineRow))).filter
              (fun l => l.reservation_id == r.id && offerIsMain db' l.offer_id) = [] := by
          apply List.filter_eq_nil_iff.mpr
          intro l hl
          obtain ⟨p, _, hp⟩ := List.mem_map.mp hl
          rw [← hp]
          simp [Int.ne_of_gt hrid]
        rw [hnew, List.append_nil]
        congr 1
        apply List.filter_congr
        intro l _
        rw [offerIsMain_congr hoffers]
    rw [hcount]
    exact hinv r hr
  · -- the new reservation: at most one MAIN among the validated lines
    rw [List.mem_singleton] at hr
    subst hr
    show mainLinesFor db' nrid ≤ 1
    unfold mainLinesFor
    rw [hlines]
    split
    · -- no lines were written and no old line carries the fresh id
      have : db.reservation_lines.filter (fun l =>
          l.reservation_id == nrid && offerIsMain db' l.offer_id) = [] := by
        apply List.filter_eq_nil_iff.mpr
        intro l hl
        simp [Int.ne_of_lt (hfresh.2 l hl)]
      rw [this]
      simp
    · rw [hkeep, List.filter_append]
      have hold : db.reservation_lines.filter (fun l =>
          l.reservation_id == nrid && offerIsMain db' l.offer_id) = [] := by
        apply List.filter_eq_nil_iff.mpr
        intro l hl
        simp [Int.ne_of_lt (hfresh.2 l hl)]
      rw [hold, List.nil_append]
      have hmap : (ls.map (fun p =>
          ({ reservation_id := nrid, offer_id := p.1, qty := p.2 } : LineRow))).filter
            (fun l => l.reservation_id == nrid && offerIsMain db' l.offer_id) =
          (ls.filter (fun p => offerIsMain db p.1)).map (fun p =>
            ({ reservation_id := nrid, offer_id := p.1, qty := p.2 } : LineRow)) := by
        induction ls with
        | nil => rfl
        | cons p t ih =>
          rw [List.map_cons, List.filter_cons, List.filter_cons]
          by_cases hm : offerIsMain db p.1
          · rw [if_pos (by simp [hm, offerIsMain_congr hoffers]),
              if_pos (by simp [hm]), List.map_cons, ih]
          · rw [if_neg (by simp [hm, offerIsMain_congr hoffers]),
              if_neg (by simp [hm]), ih]
      rw [hmap, List.length_map, hls, List.filter_append, List.length_append]
      have hsides : (sideLinesOf form ob).filter (fun p => offerIsMain db p.1) = [] := by
        apply List.filter_eq_nil_iff.mpr
        intro p hp
        obtain ⟨kv, _, hkv⟩ := List.mem_filterMap.mp hp
        obtain ⟨o, ho, hside, _⟩ := sideLineOfEntry_side hkv
        simp [offerIsMain_of_side_line db d hnodup ho hside]
      rw [hsides]
      simp only [List.length_nil, Nat.add_zero]
      calc (mains.filter (fun p => offerIsMain db p.1)).length
          ≤ mains.length := List.length_filter_le _ _
        _ ≤ 1 := mainLineOf_ok_length hmain

/-- `ensure_event_for_date` touches only the events table and its counter. -/
theorem ensure_event_frame (d : String) (menu : List String) (db : DB) :
    (ensure_event_for_date d menu db).offers = db.offers ∧
    (ensure_event_for_date d menu db).reservations = db.reservations ∧
    (ensure_event_for_date d menu db).reservation_lines = db.reservation_lines ∧
    (ensure_event_for_date d menu db).nextReservationId = db.nextReservationId := by
  unfold ensure_event_for_date
  split <;> simp

/-- The handler's store result, `public.py` version: either untouched by the
gates or produced by the shared tail on the ensured store. -/
theorem reservePublic_db_cases (vrf : Int → String → String → Bool) (d : String)
    (menu : List String) (form : Form) (db : DB) :
    (reservePublic vrf d menu form db).2 = ensure_event_for_date d menu db ∨
    ∃ ev, (reservePublic vrf d menu form db).2 =
      (reserveCore vrf d ev form (ensure_event_for_date d menu db)).2 := by
  simp only [reservePublic]
  repeat' split
  all_goals first
  | (left; rfl)
  | (right; exact ⟨_, rfl⟩)

/-- The handler's store result, live `main.py` version. -/
theorem reserveMainApp_db_cases (vrf : Int → String → String → Bool) (d : String)
    (menu : List String) (form : Form) (db : DB) :
    (reserveMainApp vrf d menu form db).2 = ensure_event_for_date d menu db ∨
    ∃ ev, (reserveMainApp vrf d menu form db).2 =
      (reserveCore vrf d ev form (ensure_event_for_date d menu db)).2 := by
  simp only [reserveMainApp]
  repeat' split
  all_goals first
  | (left; rfl)
  | (right; exact ⟨_, rfl⟩)

/-- The three storage invariants transfer across `ensure_event_for_date`. -/
theorem invariants_ensure (d : String) (menu : List String) (db : DB)
    (hnodup : OfferIdsNodup db) (hfresh : ReservationIdsFresh db)
    (hinv : AtMostOneMain db) :
    OfferIdsNodup (ensure_event_for_date d menu db) ∧
    ReservationIdsFresh (ensure_event_for_date d menu db) ∧
    AtMostOneMain (ensure_event_for_date d menu db) := by
  obtain ⟨ho, hr, hl, hn⟩ := ensure_event_frame d menu db
  refine ⟨?_, ?_, ?_⟩
  · unfold OfferIdsNodup
    rw [ho]
    exact hnodup
  · unfold ReservationIdsFresh
    rw [hr, hl, hn]
    exact hfresh
  · intro r hr2
    rw [hr] at hr2
    rw [mainLinesFor_congr ho hl]
    exact hinv r hr2

/-! ## C6: at most one MAIN line per submission and per stored reservation -/

/-- C6: the validated line set of any submission contains at most one line
referencing a MAIN offer — the side loop only admits SIDE offers and the
single `main_choice` contributes at most one line, so the handler's
more-than-one-MAIN rejection guard can in fact never fire, making the
claim's rejection clause hold vacuously — and consequently both handlers
preserve the storage invariant that every persisted reservation has at most
one MAIN line (given distinct offer ids and autoincrement-fresh reservation
ids). -/
theorem C6_at_most_one_main :
    (∀ (form : Form) (ob : Int → Option OfferRow) (mains : List (Int × Int)),
        mainLineOf form ob = .ok mains →
        mainCount ob (mains ++ sideLinesOf form ob) ≤ 1) ∧
    (∀ (vrf : Int → String → String → Bool) (d : String) (menu : List String)
        (form : Form) (db : DB),
        OfferIdsNodup db → ReservationIdsFresh db → AtMostOneMain db →
        AtMostOneMain (reservePublic vrf d menu form db).2 ∧
        AtMostOneMain (reserveMainApp vrf d menu form db).2) := by
  refine ⟨fun _ _ _ h => mainCount_lines_le_one h, ?_⟩
  intro vrf d menu form db hnodup hfresh hinv
  obtain ⟨hnodup', hfresh', hinv'⟩ := invariants_ensure d menu db hnodup hfresh hinv
  constructor
  · rcases reservePublic_db_cases vrf d menu form db with hcase | ⟨ev, hcase⟩
    · rw [hcase]
      exact hinv'
    · rw [hcase]
      exact reserveCore_preserves_AtMostOneMain vrf d ev form _ hnodup' hfresh' hinv'
  · rcases reserveMainApp_db_cases vrf d menu form db with hcase | ⟨ev, hcase⟩
    · rw [hcase]
      exact hinv'
    · rw [hcase]
      exact reserveCore_preserves_AtMostOneMain vrf d ev form _ hnodup' hfresh' hinv'

/-- Witness for `C6_at_most_one_main`: the §8 scenario store — one MAIN and
one SIDE offer, a full submission — satisfies the preconditions, and the
resulting store still satisfies the invariant, concretely. -/
theorem C6_at_most_one_main_witness :
    (mainLineOf { fields := [("main_choice", "1"), ("offer_2", "5")] }
        (offersById [{ id := 1, offer_date := "2025-06-10", offer_type := .MAIN, recipe_id := some 10, food_id := none, max_per_person := 1, is_active := true },
          { id := 2, offer_date := "2025-06-10", offer_type := .SIDE, recipe_id := none, food_id := some 20, max_per_person := 3, is_active := true }]) =
      .ok [(1, 1)] ∧
      mainCount (offersById [{ id := 1, offer_date := "2025-06-10", offer_type := .MAIN, recipe_id := some 10, food_id := none, max_per_person := 1, is_active := true },
          { id := 2, offer_date := "2025-06-10", offer_type := .SIDE, recipe_id := none, food_id := some 20, max_per_person := 3, is_active := true }])
        ([(1, 1)] ++ sideLinesOf { fields := [("main_choice", "1"), ("offer_2", "5")] }
          (offersById [{ id := 1, offer_date := "2025-06-10", offer_type := .MAIN, recipe_id := some 10, food_id := none, max_per_person := 1, is_active := true },
            { id := 2, offer_date := "2025-06-10", offer_type := .SIDE, recipe_id := none, food_id := some 20, max_per_person := 3, is_active := true }])) ≤ 1) ∧
    (OfferIdsNodup
        { events := [{ id := 1, event_date := "2025-06-10", menu := ["Œufs"], is_open := true, is_planned := true }],
          agents := [{ id := 7, name := "Sam", phone := "06", whatsapp_optin := true, is_active := true }],
          shifts := [{ shift_date := "2025-06-10", agent_id := 7 }],
          offers := [{ id := 1, offer_date := "2025-06-10", offer_type := .MAIN, recipe_id := some 10, food_id := none, max_per_person := 1, is_active := true },
            { id := 2, offer_date := "2025-06-10", offer_type := .SIDE, recipe_id := none, food_id := some 20, max_per_person := 3, is_active := true }],
          reservations := [], reservation_lines := [],
          nextEventId := 2, nextOfferId := 3, nextReservationId := 1 } ∧
      AtMostOneMain (reservePublic (fun _ _ _ => true) "2025-06-10" ["Œufs"]
        { fields := [("agent", "7"), ("d", "2025-06-10"), ("k", "tok"), ("main_choice", "1"), ("main_qty_1", "1"), ("offer_2", "5"), ("bring", "jus")] }
        { events := [{ id := 1, event_date := "2025-06-10", menu := ["Œufs"], is_open := true, is_planned := true }],
          agents := [{ id := 7, name := "Sam", phone := "06", whatsapp_optin := true, is_active := true }],
          shifts := [{ shift_date := "2025-06-10", agent_id := 7 }],
          offers := [{ id := 1, offer_date := "2025-06-10", offer_type := .MAIN, recipe_id := some 10, food_id := none, max_per_person := 1, is_active := true },
            { id := 2, offer_date := "2025-06-10", offer_type := .SIDE, recipe_id := none, food_id := some 20, max_per_person := 3, is_active := true }],
          reservations := [], reservation_lines := [],
          nextEventId := 2, nextOfferId := 3, nextReservationId := 1 }).2) := by
  refine ⟨⟨by decide, ?_⟩, by decide, ?_⟩
  · exact (C6_at_most_one_main.1 _ _ _ (by decide))
  · exact ((C6_at_most_one_main.2 (fun _ _ _ => true) "2025-06-10" ["Œufs"] _ _
      (by decide) (by decide) (by decide)).1)


/-! ## C5: quantity clamping -/

/-- Old stored lines never carry a fresh reservation id, so the lines stored
for the new reservation are exactly the validated ones. -/
theorem linesForReservation_after_success (vrf : Int → String → String → Bool)
    (d : String) (ev : EventRow) (form : Form) (db : DB) (agent : AgentRow)
    (mains : List (Int × Int))
    (hres : resolveAgent vrf d form db = .ok agent)
    (hdup : reservation_exists_for_event ev.id agent.name db = false)
    (hoff : ¬ list_offers_for_date d db = [])
    (hmain : mainLineOf form (offersById (list_offers_for_date d db)) = .ok mains)
    (hfresh : ∀ l ∈ db.reservation_lines, l.reservation_id ≠ db.nextReservationId)
    (hne : ¬(mains ++ sideLinesOf form (offersById (list_offers_for_date d db)) = [] ∧
        pyStrip ((form.get "bring").getD "") = "")) :
    linesForReservation (reserveCore vrf d ev form db).2 db.nextReservationId =
      (mains ++ sideLinesOf form (offersById (list_offers_for_date d db))).map
        (fun p => { reservation_id := db.nextReservationId, offer_id := p.1, qty := p.2 }) := by
  rw [reserveCore_success_shape ev hres hdup hoff hmain (mainCount_lines_le_one hmain) hne]
  unfold linesForReservation
  split
  next hnil =>
    rw [hnil, List.map_nil]
    apply List.filter_eq_nil_iff.mpr
    intro l hl
    simp only [create_reservation] at hl
    simp [hfresh l hl]
  next hnn =>
    simp only [set_reservation_lines, create_reservation, List.filter_append]
    have h1 : (db.reservation_lines.filter
        (fun l => !(l.reservation_id == db.nextReservationId))).filter
          (fun l => l.reservation_id == db.nextReservationId) = [] := by
      apply List.filter_eq_nil_iff.mpr
      intro l hl
      simp [hfresh l (List.mem_of_mem_filter hl)]
    have h2 : ((mains ++ sideLinesOf form (offersById (list_offers_for_date d db))).map
        (fun p => ({ reservation_id := db.nextReservationId, offer_id := p.1, qty := p.2 } : LineRow))).filter
          (fun l => l.reservation_id == db.nextReservationId) =
        (mains ++ sideLinesOf form (offersById (list_offers_for_date d db))).map
          (fun p => ({ reservation_id := db.nextReservationId, offer_id := p.1, qty := p.2 } : LineRow)) := by
      apply List.filter_eq_self.mpr
      intro l hl
      obtain ⟨p, _, hp⟩ := List.mem_map.mp hl
      rw [← hp]
      simp
    rw [h1, h2, List.nil_append]

/-- C5: submitted quantities are clamped against `max_per_person`: (a) a main
quantity above the cap is persisted as the cap; (b) a missing, empty,
unparsable or below-1 main quantity becomes 1; (c) a side quantity above the
cap becomes the cap (in range it is kept as is); (d) a side entry with an
unparsable or non-positive quantity is dropped; and (e) on a successful
submission the stored lines of the new reservation are exactly the validated
(clamped) lines. -/
theorem C5_quantity_clamping :
    (∀ (form : Form) (ob : Int → Option OfferRow) (mid : Int) (o : OfferRow)
        (s v : String) (q : Int),
        form.get "main_choice" = some s → ¬ s = "" → parseInt s = some mid →
        ob mid = some o → o.offer_type = OfferType.MAIN → o.is_active = true →
        form.get ("main_qty_" ++ toString mid) = some v →
        parseInt v = some q → 1 ≤ q → 1 ≤ o.max_per_person →
        o.max_per_person < q →
        mainLineOf form ob = .ok [(mid, o.max_per_person)]) ∧
    (∀ (form : Form) (ob : Int → Option OfferRow) (mid : Int) (o : OfferRow)
        (s : String),
        form.get "main_choice" = some s → ¬ s = "" → parseInt s = some mid →
        ob mid = some o → o.offer_type = OfferType.MAIN → o.is_active = true →
        1 ≤ o.max_per_person →
        (form.get ("main_qty_" ++ toString mid) = none ∨
          (∃ v, form.get ("main_qty_" ++ toString mid) = some v ∧
            (v = "" ∨ parseInt v = none)) ∨
          (∃ v q, form.get ("main_qty_" ++ toString mid) = some v ∧
            parseInt v = some q ∧ q < 1)) →
        mainLineOf form ob = .ok [(mid, 1)]) ∧
    (∀ (ob : Int → Option OfferRow) (oid : Int) (o : OfferRow) (k v : String)
        (q : Int),
        strStartsWith k "offer_" = true → parseInt (strDrop k 6) = some oid →
        parseInt v = some q → 0 < q →
        ob oid = some o → o.offer_type = OfferType.SIDE → o.is_active = true →
        1 ≤ o.max_per_person →
        sideLineOfEntry ob (k, v) =
          some (oid, if o.max_per_person < q then o.max_per_person else q)) ∧
    (∀ (ob : Int → Option OfferRow) (k v : String),
        (parseInt v = none ∨ ∃ q, parseInt v = some q ∧ q ≤ 0) →
        sideLineOfEntry ob (k, v) = none) ∧
    (∀ (vrf : Int → String → String → Bool) (d : String) (ev : EventRow)
        (form : Form) (db : DB) (agent : AgentRow) (mains : List (Int × Int)),
        resolveAgent vrf d form db = .ok agent →
        reservation_exists_for_event ev.id agent.name db = false →
        ¬ list_offers_for_date d db = [] →
        mainLineOf form (offersById (list_offers_for_date d db)) = .ok mains →
        (∀ l ∈ db.reservation_lines, l.reservation_id ≠ db.nextReservationId) →
        ¬(mains ++ sideLinesOf form (offersById (list_offers_for_date d db)) = [] ∧
            pyStrip ((form.get "bring").getD "") = "") →
        linesForReservation (reserveCore vrf d ev form db).2 db.nextReservationId =
          (mains ++ sideLinesOf form (offersById (list_offers_for_date d db))).map
            (fun p => { reservation_id := db.nextReservationId, offer_id := p.1,
                        qty := p.2 })) := by
  refine ⟨?_, ?_, ?_, ?_,
    fun vrf d ev form db agent mains h1 h2 h3 h4 h5 h6 =>
      linesForReservation_after_success vrf d ev form db agent mains h1 h2 h3 h4 h5 h6⟩
  · intro form ob mid o s v q hmc hsne hparse hob hMAIN hact hqty hq hq1 hcap hgt
    have hv : ¬ v = "" := by
      intro hv0
      rw [hv0, show parseInt "" = none from by decide] at hq
      simp at hq
    have hne1 : ¬ q < 1 := by omega
    have hne0 : ¬ o.max_per_person = 0 := by omega
    have hgt' : q > o.max_per_person := hgt
    unfold mainLineOf
    simp [hmc, hsne, hparse, hob, hMAIN, hact, hqty, hv, hq, hne1, hne0, hgt']
  · intro form ob mid o s hmc hsne hparse hob hMAIN hact hcap hcases
    have hne0 : ¬ o.max_per_person = 0 := by omega
    have hnlt : ¬ (1 : Int) > o.max_per_person := by omega
    unfold mainLineOf
    rcases hcases with hnone | ⟨v, hv, hdrop⟩ | ⟨v, q, hv, hq, hqlt⟩
    · simp [hmc, hsne, hparse, hob, hMAIN, hact, hnone, hne0, hnlt]
    · rcases hdrop with rfl | hpn
      · simp [hmc, hsne, hparse, hob, hMAIN, hact, hv, hne0, hnlt]
      · by_cases hvv : v = ""
        · simp [hmc, hsne, hparse, hob, hMAIN, hact, hv, hvv, hne0, hnlt]
        · simp [hmc, hsne, hparse, hob, hMAIN, hact, hv, hvv, hpn, hne0, hnlt]
    · have hvne : ¬ v = "" := by
        intro hv0
        rw [hv0, show parseInt "" = none from by decide] at hq
        simp at hq
      simp [hmc, hsne, hparse, hob, hMAIN, hact, hv, hvne, hq, hqlt, hne0, hnlt]
  · intro ob oid o k v q hk hkid hq hqpos hob hSIDE hact hcap
    have hne0 : ¬ o.max_per_person = 0 := by omega
    have hnle : ¬ q ≤ 0 := by omega
    unfold sideLineOfEntry
    simp [hk, hkid, hq, hnle, hob, hSIDE, hact, hne0]
  · intro ob k v hbad
    unfold sideLineOfEntry
    rcases hbad with hnone | ⟨q, hq, hle⟩
    · split
      · rfl
      · simp only [hnone]
        cases parseInt (strDrop k 6) <;> rfl
    · split
      · rfl
      · simp only [hq]
        cases parseInt (strDrop k 6) with
        | none => rfl
        | some oid => simp [hle]


/-- Witness for `C5_quantity_clamping`: with a MAIN offer capped at 2, a
submitted main quantity of 5 yields the line `(1, 2)`; a missing quantity
yields `(1, 1)`; a side quantity of 5 against cap 3 yields `(2, 3)`; side
values `"abc"` and `"0"` are dropped; and the §8-style submission persists
exactly the clamped lines. -/
theorem C5_quantity_clamping_witness :
    (mainLineOf { fields := [("main_choice", "1"), ("main_qty_1", "5")] }
        (offersById [{ id := 1, offer_date := "2025-06-10", offer_type := .MAIN, recipe_id := some 10, food_id := none, max_per_person := 2, is_active := true }]) =
      .ok [(1, 2)]) ∧
    (mainLineOf { fields := [("main_choice", "1")] }
        (offersById [{ id := 1, offer_date := "2025-06-10", offer_type := .MAIN, recipe_id := some 10, food_id := none, max_per_person := 2, is_active := true }]) =
      .ok [(1, 1)]) ∧
    (sideLineOfEntry
        (offersById [{ id := 2, offer_date := "2025-06-10", offer_type := .SIDE, recipe_id := none, food_id := some 20, max_per_person := 3, is_active := true }])
        ("offer_2", "5") = some (2, 3)) ∧
    (sideLineOfEntry
        (offersById [{ id := 2, offer_date := "2025-06-10", offer_type := .SIDE, recipe_id := none, food_id := some 20, max_per_person := 3, is_active := true }])
        ("offer_2", "abc") = none) ∧
    (sideLineOfEntry
        (offersById [{ id := 2, offer_date := "2025-06-10", offer_type := .SIDE, recipe_id := none, food_id := some 20, max_per_person := 3, is_active := true }])
        ("offer_2", "0") = none) ∧
    (linesForReservation
        (reserveCore (fun _ _ _ => true) "2025-06-10"
          { id := 1, event_date := "2025-06-10", menu := ["Œufs"], is_open := true, is_planned := true }
          { fields := [("agent", "7"), ("d", "2025-06-10"), ("k", "tok"), ("main_choice", "1"), ("main_qty_1", "5"), ("offer_2", "5"), ("bring", "")] }
          { events := [{ id := 1, event_date := "2025-06-10", menu := ["Œufs"], is_open := true, is_planned := true }],
            agents := [{ id := 7, name := "Sam", phone := "06", whatsapp_optin := true, is_active := true }],
            shifts := [{ shift_date := "2025-06-10", agent_id := 7 }],
            offers := [{ id := 1, offer_date := "2025-06-10", offer_type := .MAIN, recipe_id := some 10, food_id := none, max_per_person := 2, is_active := true },
              { id := 2, offer_date := "2025-06-10", offer_type := .SIDE, recipe_id := none, food_id := some 20, max_per_person := 3, is_active := true }],
            reservations := [], reservation_lines := [],
            nextEventId := 2, nextOfferId := 3, nextReservationId := 1 }).2 1 =
      [{ reservation_id := 1, offer_id := 1, qty := 2 },
       { reservation_id := 1, offer_id := 2, qty := 3 }]) := by
  refine ⟨?_, ?_, ?_, ?_, ?_, ?_⟩
  · exact C5_quantity_clamping.1
      { fields := [("main_choice", "1"), ("main_qty_1", "5")] } _ 1
      { id := 1, offer_date := "2025-06-10", offer_type := .MAIN, recipe_id := some 10, food_id := none, max_per_person := 2, is_active := true }
      "1" "5" 5 (by decide) (by decide) (by decide) (by decide) (by decide)
      (by decide) (by decide) (by decide) (by decide) (by decide) (by decide)
  · exact C5_quantity_clamping.2.1
      { fields := [("main_choice", "1")] } _ 1
      { id := 1, offer_date := "2025-06-10", offer_type := .MAIN, recipe_id := some 10, food_id := none, max_per_person := 2, is_active := true }
      "1" (by decide) (by decide) (by decide) (by decide) (by decide)
      (by decide) (by decide) (Or.inl (by decide))
  · exact C5_quantity_clamping.2.2.1 _ 2
      { id := 2, offer_date := "2025-06-10", offer_type := .SIDE, recipe_id := none, food_id := some 20, max_per_person := 3, is_active := true }
      "offer_2" "5" 5 (by decide) (by decide) (by decide) (by decide)
      (by decide) (by decide) (by decide) (by decide)
  · exact C5_quantity_clamping.2.2.2.1 _ "offer_2" "abc" (Or.inl (by decide))
  · exact C5_quantity_clamping.2.2.2.1 _ "offer_2" "0" (Or.inr ⟨0, by decide, by decide⟩)
  · have h := C5_quantity_clamping.2.2.2.2 (fun _ _ _ => true) "2025-06-10"
      { id := 1, event_date := "2025-06-10", menu := ["Œufs"], is_open := true, is_planned := true }
      { fields := [("agent", "7"), ("d", "2025-06-10"), ("k", "tok"), ("main_choice", "1"), ("main_qty_1", "5"), ("offer_2", "5"), ("bring", "")] }
      { events := [{ id := 1, event_date := "2025-06-10", menu := ["Œufs"], is_open := true, is_planned := true }],
        agents := [{ id := 7, name := "Sam", phone := "06", whatsapp_optin := true, is_active := true }],
        shifts := [{ shift_date := "2025-06-10", agent_id := 7 }],
        offers := [{ id := 1, offer_date := "2025-06-10", offer_type := .MAIN, recipe_id := some 10, food_id := none, max_per_person := 2, is_active := true },
          { id := 2, offer_date := "2025-06-10", offer_type := .SIDE, recipe_id := none, food_id := some 20, max_per_person := 3, is_active := true }],
        reservations := [], reservation_lines := [],
        nextEventId := 2, nextOfferId := 3, nextReservationId := 1 }
      { id := 7, name := "Sam", phone := "06", whatsapp_optin := true, is_active := true }
      [(1, 2)] (by decide) (by decide) (by decide) (by decide) (by decide) (by decide)
    rw [h]
    decide


/-- With an existing planned open event, the router handler is the shared
tail. -/
theorem reservePublic_of_core (vrf : Int → String → String → Bool) (d : String)
    (menu : List String) (form : Form) {db : DB} {ev : EventRow}
    (hev : get_event d db = some ev) (hpl : ev.is_planned = true)
    (hop : ev.is_open = true) :
    reservePublic vrf d menu form db = reserveCore vrf d ev form db := by
  unfold reservePublic
  rw [ensure_event_noop ev menu hev]
  simp [hev, hpl, hop]

/-- With an existing planned open event, the live handler is the shared
tail. -/
theorem reserveMainApp_of_core (vrf : Int → String → String → Bool) (d : String)
    (menu : List String) (form : Form) {db : DB} {ev : EventRow}
    (hev : get_event d db = some ev) (hpl : ev.is_planned = true)
    (hop : ev.is_open = true) :
    reserveMainApp vrf d menu form db = reserveCore vrf d ev form db := by
  unfold reserveMainApp
  rw [ensure_event_noop ev menu hev]
  simp [hev, hpl, hop]

/-! ## C3: duplicate protection is case- and whitespace-insensitive -/

/-- C3: once a submission has succeeded for an event under an agent whose
canonical name is `a₁.name`, any second submission that passes the link
gates and resolves to a name equal to the stored one up to trimming and
ASCII case (`lower(trim(stored)) = submitted.strip().lower()`, the code's
comparison) is rejected with `already`, and the store — in particular the
reservations table — is exactly what the first submission left: no second
row is created. -/
theorem C3_duplicate_rejected (vrf : Int → String → String → Bool) (d : String)
    (menu : List String) (form1 form2 : Form) (db : DB) (ev : EventRow)
    (a1 a2 : AgentRow) (mains : List (Int × Int))
    (hev : get_event d db = some ev) (hpl : ev.is_planned = true)
    (hop : ev.is_open = true)
    (hres1 : resolveAgent vrf d form1 db = .ok a1)
    (hdup1 : reservation_exists_for_event ev.id a1.name db = false)
    (hoff : ¬ list_offers_for_date d db = [])
    (hmain : mainLineOf form1 (offersById (list_offers_for_date d db)) = .ok mains)
    (hne1 : ¬(mains ++ sideLinesOf form1 (offersById (list_offers_for_date d db)) = [] ∧
        pyStrip ((form1.get "bring").getD "") = ""))
    (hres2 : resolveAgent vrf d form2 db = .ok a2)
    (hnorm : sqlNorm (pyStrip a1.name) = pyNorm a2.name) :
    (reservePublic vrf d menu form1 db).1 = .success ∧
    reservePublic vrf d menu form2 (reservePublic vrf d menu form1 db).2 =
      (.already, (reservePublic vrf d menu form1 db).2) := by
  have hpub1 : reservePublic vrf d menu form1 db = reserveCore vrf d ev form1 db :=
    reservePublic_of_core vrf d menu form1 hev hpl hop
  have hsh := reserveCore_success_shape ev hres1 hdup1 hoff hmain
    (mainCount_lines_le_one hmain) hne1
  have hframe := reserveCore_frame vrf d ev form1 db
  have hsuc : (reservePublic vrf d menu form1 db).1 = .success := by
    rw [hpub1, hsh]
  refine ⟨hsuc, ?_⟩
  have hget1 : get_event d (reservePublic vrf d menu form1 db).2 = some ev := by
    rw [hpub1, get_event_congr d hframe.1]
    exact hev
  have hres2' : resolveAgent vrf d form2 (reservePublic vrf d menu form1 db).2 =
      .ok a2 := by
    rw [hpub1, resolveAgent_congr vrf d form2 hframe.2.2.1 hframe.2.1]
    exact hres2
  have hresv : (reservePublic vrf d menu form1 db).2.reservations =
      db.reservations ++
        [{ id := db.nextReservationId, event_id := ev.id, name := pyStrip a1.name,
           bring := pyStrip (pyStrip ((form1.get "bring").getD "")) }] := by
    rw [hpub1, hsh]
    split <;> simp [create_reservation, set_reservation_lines]
  have hdup2 : reservation_exists_for_event ev.id a2.name
      (reservePublic vrf d menu form1 db).2 = true := by
    unfold reservation_exists_for_event
    apply List.any_eq_true.mpr
    refine ⟨{ id := db.nextReservationId, event_id := ev.id, name := pyStrip a1.name, bring := pyStrip (pyStrip ((form1.get "bring").getD "")) }, ?_, ?_⟩
    · rw [hresv]
      exact List.mem_append_right _ (by simp)
    · simp [hnorm]
  have hcore2 := reserveCore_already_of_dup ev hres2' hdup2
  rw [reservePublic_of_core vrf d menu form2 hget1 hpl hop, hcore2]

/-- Witness for `C3_duplicate_rejected`: "Jane Doe" reserves, then agent 8 —
whose registry name `" jane DOE "` resolves to the same name up to
whitespace and case — is rejected with `already` and no second row appears. -/
theorem C3_duplicate_rejected_witness :
    ((reservePublic (fun _ _ _ => true) "2025-06-10" ["Œufs"]
        { fields := [("agent", "7"), ("d", "2025-06-10"), ("k", "tok"), ("bring", "jus")] }
        { events := [{ id := 1, event_date := "2025-06-10", menu := ["Œufs"], is_open := true, is_planned := true }],
          agents := [{ id := 7, name := "Jane Doe", phone := "06", whatsapp_optin := true, is_active := true },
            { id := 8, name := " jane DOE ", phone := "07", whatsapp_optin := true, is_active := true }],
          shifts := [{ shift_date := "2025-06-10", agent_id := 7 }, { shift_date := "2025-06-10", agent_id := 8 }],
          offers := [{ id := 1, offer_date := "2025-06-10", offer_type := .SIDE, recipe_id := none, food_id := some 3, max_per_person := 2, is_active := true }],
          reservations := [], reservation_lines := [],
          nextEventId := 2, nextOfferId := 2, nextReservationId := 1 }).1 = .success) ∧
    reservePublic (fun _ _ _ => true) "2025-06-10" ["Œufs"]
        { fields := [("agent", "8"), ("d", "2025-06-10"), ("k", "tok"), ("bring", "x")] }
        (reservePublic (fun _ _ _ => true) "2025-06-10" ["Œufs"]
          { fields := [("agent", "7"), ("d", "2025-06-10"), ("k", "tok"), ("bring", "jus")] }
          { events := [{ id := 1, event_date := "2025-06-10", menu := ["Œufs"], is_open := true, is_planned := true }],
            agents := [{ id := 7, name := "Jane Doe", phone := "06", whatsapp_optin := true, is_active := true },
              { id := 8, name := " jane DOE ", phone := "07", whatsapp_optin := true, is_active := true }],
            shifts := [{ shift_date := "2025-06-10", agent_id := 7 }, { shift_date := "2025-06-10", agent_id := 8 }],
            offers := [{ id := 1, offer_date := "2025-06-10", offer_type := .SIDE, recipe_id := none, food_id := some 3, max_per_person := 2, is_active := true }],
            reservations := [], reservation_lines := [],
            nextEventId := 2, nextOfferId := 2, nextReservationId := 1 }).2 =
      (.already,
        (reservePublic (fun _ _ _ => true) "2025-06-10" ["Œufs"]
          { fields := [("agent", "7"), ("d", "2025-06-10"), ("k", "tok"), ("bring", "jus")] }
          { events := [{ id := 1, event_date := "2025-06-10", menu := ["Œufs"], is_open := true, is_planned := true }],
            agents := [{ id := 7, name := "Jane Doe", phone := "06", whatsapp_optin := true, is_active := true },
              { id := 8, name := " jane DOE ", phone := "07", whatsapp_optin := true, is_active := true }],
            shifts := [{ shift_date := "2025-06-10", agent_id := 7 }, { shift_date := "2025-06-10", agent_id := 8 }],
            offers := [{ id := 1, offer_date := "2025-06-10", offer_type := .SIDE, recipe_id := none, food_id := some 3, max_per_person := 2, is_active := true }],
            reservations := [], reservation_lines := [],
            nextEventId := 2, nextOfferId := 2, nextReservationId := 1 }).2) := by
  have h := C3_duplicate_rejected (fun _ _ _ => true) "2025-06-10" ["Œufs"]
    { fields := [("agent", "7"), ("d", "2025-06-10"), ("k", "tok"), ("bring", "jus")] }
    { fields := [("agent", "8"), ("d", "2025-06-10"), ("k", "tok"), ("bring", "x")] }
    { events := [{ id := 1, event_date := "2025-06-10", menu := ["Œufs"], is_open := true, is_planned := true }],
      agents := [{ id := 7, name := "Jane Doe", phone := "06", whatsapp_optin := true, is_active := true },
        { id := 8, name := " jane DOE ", phone := "07", whatsapp_optin := true, is_active := true }],
      shifts := [{ shift_date := "2025-06-10", agent_id := 7 }, { shift_date := "2025-06-10", agent_id := 8 }],
      offers := [{ id := 1, offer_date := "2025-06-10", offer_type := .SIDE, recipe_id := none, food_id := some 3, max_per_person := 2, is_active := true }],
      reservations := [], reservation_lines := [],
      nextEventId := 2, nextOfferId := 2, nextReservationId := 1 }
    { id := 1, event_date := "2025-06-10", menu := ["Œufs"], is_open := true, is_planned := true }
    { id := 7, name := "Jane Doe", phone := "06", whatsapp_optin := true, is_active := true }
    { id := 8, name := " jane DOE ", phone := "07", whatsapp_optin := true, is_active := true }
    [] (by decide) (by decide) (by decide) (by decide) (by decide) (by decide)
    (by decide) (by decide) (by decide) (by decide)
  exact ⟨h.1, h.2⟩


/-! ## C2: one flash per rejection, distinctness and priority -/

/-- An invalid main choice fails after the offers check, store untouched. -/
theorem reserveCore_main_error {vrf : Int → String → String → Bool}
    {d : String} {form : Form} {db : DB} {agent : AgentRow} {out : ReserveOutcome}
    (ev : EventRow)
    (hres : resolveAgent vrf d form db = .ok agent)
    (hdup : reservation_exists_for_event ev.id agent.name db = false)
    (hoff : ¬ list_offers_for_date d db = [])
    (hmain : mainLineOf form (offersById (list_offers_for_date d db)) = .error out) :
    reserveCore vrf d ev form db = (out, db) := by
  unfold reserveCore
  rw [hres]
  simp [hdup, hoff, hmain]

/-- An empty choice with an empty bring note is the last rejection. -/
theorem reserveCore_nothing_chosen {vrf : Int → String → String → Bool}
    {d : String} {form : Form} {db : DB} {agent : AgentRow}
    (ev : EventRow)
    (hres : resolveAgent vrf d form db = .ok agent)
    (hdup : reservation_exists_for_event ev.id agent.name db = false)
    (hoff : ¬ list_offers_for_date d db = [])
    (hmain : mainLineOf form (offersById (list_offers_for_date d db)) = .ok [])
    (hsides : sideLinesOf form (offersById (list_offers_for_date d db)) = [])
    (hbring : pyStrip ((form.get "bring").getD "") = "") :
    reserveCore vrf d ev form db = (.nothingChosen, db) := by
  unfold reserveCore
  rw [hres]
  simp [hdup, hoff, hmain, hsides, hbring, mainCount]

/-- C2 counterexample against the live handler: a store whose event is
unplanned (but open) and a store whose event is planned but closed — two
different blocking conditions — produce rejections carrying the *same* flash
message, so in the handler registered on the app (`main.py`, the routers are
never mounted) the failure conditions `not_planned` and `closed` do not map
to distinct user-facing reasons. -/
theorem C2_flash_counterexample :
    (get_event "2025-06-10"
        { events := [{ id := 1, event_date := "2025-06-10", menu := [], is_open := true, is_planned := false }],
          agents := [], shifts := [], offers := [], reservations := [], reservation_lines := [],
          nextEventId := 2, nextOfferId := 1, nextReservationId := 1 } =
      some { id := 1, event_date := "2025-06-10", menu := [], is_open := true, is_planned := false }) ∧
    (get_event "2025-06-10"
        { events := [{ id := 1, event_date := "2025-06-10", menu := [], is_open := false, is_planned := true }],
          agents := [], shifts := [], offers := [], reservations := [], reservation_lines := [],
          nextEventId := 2, nextOfferId := 1, nextReservationId := 1 } =
      some { id := 1, event_date := "2025-06-10", menu := [], is_open := false, is_planned := true }) ∧
    (reserveMainApp (fun _ _ _ => false) "2025-06-10" [] { fields := [] }
        { events := [{ id := 1, event_date := "2025-06-10", menu := [], is_open := true, is_planned := false }],
          agents := [], shifts := [], offers := [], reservations := [], reservation_lines := [],
          nextEventId := 2, nextOfferId := 1, nextReservationId := 1 }).1 = .closedOrNotPlanned ∧
    (reserveMainApp (fun _ _ _ => false) "2025-06-10" [] { fields := [] }
        { events := [{ id := 1, event_date := "2025-06-10", menu := [], is_open := false, is_planned := true }],
          agents := [], shifts := [], offers := [], reservations := [], reservation_lines := [],
          nextEventId := 2, nextOfferId := 1, nextReservationId := 1 }).1 = .closedOrNotPlanned ∧
    flashMessage (reserveMainApp (fun _ _ _ => false) "2025-06-10" [] { fields := [] }
        { events := [{ id := 1, event_date := "2025-06-10", menu := [], is_open := true, is_planned := false }],
          agents := [], shifts := [], offers := [], reservations := [], reservation_lines := [],
          nextEventId := 2, nextOfferId := 1, nextReservationId := 1 }).1 =
      flashMessage (reserveMainApp (fun _ _ _ => false) "2025-06-10" [] { fields := [] }
        { events := [{ id := 1, event_date := "2025-06-10", menu := [], is_open := false, is_planned := true }],
          agents := [], shifts := [], offers := [], reservations := [], reservation_lines := [],
          nextEventId := 2, nextOfferId := 1, nextReservationId := 1 }).1 := by
  refine ⟨by decide, by decide, by decide, by decide, by decide⟩

/-- C2 amended: every rejection records exactly one flash (each outcome
carries a single message); in the live `main.py` handler the event gate —
missing event, `planned=false` or `open=false` — precedes everything and
maps to one combined message, after which the failure conditions are checked
in the order secure/invalid > already > no_offers > invalid choice >
nothing_chosen, each mapping to its own message, pairwise distinct; the
(unmounted) router version additionally distinguishes `not_planned` from
`closed` with two distinct messages, in that priority order. -/
theorem C2_flash_priority_amended :
    (∀ (vrf : Int → String → String → Bool) (d : String) (menu : List String)
        (form : Form) (db : DB) (ev : EventRow),
        get_event d db = some ev → (ev.is_planned = false ∨ ev.is_open = false) →
        reserveMainApp vrf d menu form db = (.closedOrNotPlanned, db)) ∧
    (∀ (vrf : Int → String → String → Bool) (d : String) (menu : List String)
        (form : Form) (db : DB) (ev : EventRow),
        get_event d db = some ev → ev.is_planned = false →
        reservePublic vrf d menu form db = (.notPlanned, db)) ∧
    (∀ (vrf : Int → String → String → Bool) (d : String) (menu : List String)
        (form : Form) (db : DB) (ev : EventRow),
        get_event d db = some ev → ev.is_planned = true → ev.is_open = false →
        reservePublic vrf d menu form db = (.closed, db)) ∧
    (∀ (vrf : Int → String → String → Bool) (d : String) (menu : List String)
        (form : Form) (db : DB) (ev : EventRow) (out : ReserveOutcome),
        get_event d db = some ev → ev.is_planned = true → ev.is_open = true →
        resolveAgent vrf d form db = .error out →
        reserveMainApp vrf d menu form db = (out, db) ∧
        reservePublic vrf d menu form db = (out, db)) ∧
    (∀ (vrf : Int → String → String → Bool) (d : String) (menu : List String)
        (form : Form) (db : DB) (ev : EventRow) (agent : AgentRow),
        get_event d db = some ev → ev.is_planned = true → ev.is_open = true →
        resolveAgent vrf d form db = .ok agent →
        reservation_exists_for_event ev.id agent.name db = true →
        reserveMainApp vrf d menu form db = (.already, db) ∧
        reservePublic vrf d menu form db = (.already, db)) ∧
    (∀ (vrf : Int → String → String → Bool) (d : String) (menu : List String)
        (form : Form) (db : DB) (ev : EventRow) (agent : AgentRow),
        get_event d db = some ev → ev.is_planned = true → ev.is_open = true →
        resolveAgent vrf d form db = .ok agent →
        reservation_exists_for_event ev.id agent.name db = false →
        list_offers_for_date d db = [] →
        reserveMainApp vrf d menu form db = (.noOffers, db) ∧
        reservePublic vrf d menu form db = (.noOffers, db)) ∧
    (∀ (vrf : Int → String → String → Bool) (d : String) (menu : List String)
        (form : Form) (db : DB) (ev : EventRow) (agent : AgentRow)
        (out : ReserveOutcome),
        get_event d db = some ev → ev.is_planned = true → ev.is_open = true →
        resolveAgent vrf d form db = .ok agent →
        reservation_exists_for_event ev.id agent.name db = false →
        ¬ list_offers_for_date d db = [] →
        mainLineOf form (offersById (list_offers_for_date d db)) = .error out →
        reserveMainApp vrf d menu form db = (out, db) ∧
        reservePublic vrf d menu form db = (out, db)) ∧
    (∀ (vrf : Int → String → String → Bool) (d : String) (menu : List String)
        (form : Form) (db : DB) (ev : EventRow) (agent : AgentRow),
        get_event d db = some ev → ev.is_planned = true → ev.is_open = true →
        resolveAgent vrf d form db = .ok agent →
        reservation_exists_for_event ev.id agent.name db = false →
        ¬ list_offers_for_date d db = [] →
        mainLineOf form (offersById (list_offers_for_date d db)) = .ok [] →
        sideLinesOf form (offersById (list_offers_for_date d db)) = [] →
        pyStrip ((form.get "bring").getD "") = "" →
        reserveMainApp vrf d menu form db = (.nothingChosen, db) ∧
        reservePublic vrf d menu form db = (.nothingChosen, db)) ∧
    ([ReserveOutcome.closedOrNotPlanned, .secureRequired, .invalidLink, .expiredLink,
      .unauthorizedLink, .agentNotFound, .already, .noOffers, .invalidChoice,
      .invalidDish, .multipleMains, .nothingChosen, .success].map flashMessage).Nodup ∧
    flashMessage .notPlanned ≠ flashMessage .closed := by
  refine ⟨?_, ?_, ?_, ?_, ?_, ?_, ?_, ?_, by decide, by decide⟩
  · intro vrf d menu form db ev hev hcase
    unfold reserveMainApp
    rw [ensure_event_noop ev menu hev]
    rcases hcase with h | h <;> simp [hev, h]
  · intro vrf d menu form db ev hev hpl
    unfold reservePublic
    rw [ensure_event_noop ev menu hev]
    simp [hev, hpl]
  · intro vrf d menu form db ev hev hpl hop
    unfold reservePublic
    rw [ensure_event_noop ev menu hev]
    simp [hev, hpl, hop]
  · intro vrf d menu form db ev out hev hpl hop hres
    refine ⟨?_, ?_⟩
    · rw [reserveMainApp_of_core vrf d menu form hev hpl hop]
      exact reserveCore_error_of_resolve ev hres
    · rw [reservePublic_of_core vrf d menu form hev hpl hop]
      exact reserveCore_error_of_resolve ev hres
  · intro vrf d menu form db ev agent hev hpl hop hres hdup
    refine ⟨?_, ?_⟩
    · rw [reserveMainApp_of_core vrf d menu form hev hpl hop]
      exact reserveCore_already_of_dup ev hres hdup
    · rw [reservePublic_of_core vrf d menu form hev hpl hop]
      exact reserveCore_already_of_dup ev hres hdup
  · intro vrf d menu form db ev agent hev hpl hop hres hdup hoff
    refine ⟨?_, ?_⟩
    · rw [reserveMainApp_of_core vrf d menu form hev hpl hop]
      exact reserveCore_noOffers ev hres hdup hoff
    · rw [reservePublic_of_core vrf d menu form hev hpl hop]
      exact reserveCore_noOffers ev hres hdup hoff
  · intro vrf d menu form db ev agent out hev hpl hop hres hdup hoff hmain
    refine ⟨?_, ?_⟩
    · rw [reserveMainApp_of_core vrf d menu form hev hpl hop]
      exact reserveCore_main_error ev hres hdup hoff hmain
    · rw [reservePublic_of_core vrf d menu form hev hpl hop]
      exact reserveCore_main_error ev hres hdup hoff hmain
  · intro vrf d menu form db ev agent hev hpl hop hres hdup hoff hmain hsides hbring
    refine ⟨?_, ?_⟩
    · rw [reserveMainApp_of_core vrf d menu form hev hpl hop]
      exact reserveCore_nothing_chosen ev hres hdup hoff hmain hsides hbring
    · rw [reservePublic_of_core vrf d menu form hev hpl hop]
      exact reserveCore_nothing_chosen ev hres hdup hoff hmain hsides hbring

/-- Witness for `C2_flash_priority_amended`: its clauses applied concretely —
an unplanned open store is rejected by the live handler with the combined
message even though offers and a roster exist, and a duplicate submission is
rejected with `already` even though no offers exist (already outranks
no_offers). -/
theorem C2_flash_priority_amended_witness :
    (reserveMainApp (fun _ _ _ => true) "2025-06-10" ["Œufs"]
        { fields := [("agent", "7"), ("d", "2025-06-10"), ("k", "tok"), ("bring", "jus")] }
        { events := [{ id := 1, event_date := "2025-06-10", menu := [], is_open := true, is_planned := false }],
          agents := [{ id := 7, name := "Sam", phone := "06", whatsapp_optin := true, is_active := true }],
          shifts := [{ shift_date := "2025-06-10", agent_id := 7 }],
          offers := [{ id := 1, offer_date := "2025-06-10", offer_type := .SIDE, recipe_id := none, food_id := some 3, max_per_person := 2, is_active := true }],
          reservations := [], reservation_lines := [],
          nextEventId := 2, nextOfferId := 2, nextReservationId := 1 } =
      (.closedOrNotPlanned,
        { events := [{ id := 1, event_date := "2025-06-10", menu := [], is_open := true, is_planned := false }],
          agents := [{ id := 7, name := "Sam", phone := "06", whatsapp_optin := true, is_active := true }],
          shifts := [{ shift_date := "2025-06-10", agent_id := 7 }],
          offers := [{ id := 1, offer_date := "2025-06-10", offer_type := .SIDE, recipe_id := none, food_id := some 3, max_per_person := 2, is_active := true }],
          reservations := [], reservation_lines := [],
          nextEventId := 2, nextOfferId := 2, nextReservationId := 1 })) ∧
    (reservePublic (fun _ _ _ => true) "2025-06-10" ["Œufs"]
        { fields := [("agent", "7"), ("d", "2025-06-10"), ("k", "tok"), ("bring", "jus")] }
        { events := [{ id := 1, event_date := "2025-06-10", menu := [], is_open := true, is_planned := true }],
          agents := [{ id := 7, name := "Sam", phone := "06", whatsapp_optin := true, is_active := true }],
          shifts := [{ shift_date := "2025-06-10", agent_id := 7 }],
          offers := [],
          reservations := [{ id := 1, event_id := 1, name := "Sam", bring := "" }], reservation_lines := [],
          nextEventId := 2, nextOfferId := 1, nextReservationId := 2 } =
      (.already,
        { events := [{ id := 1, event_date := "2025-06-10", menu := [], is_open := true, is_planned := true }],
          agents := [{ id := 7, name := "Sam", phone := "06", whatsapp_optin := true, is_active := true }],
          shifts := [{ shift_date := "2025-06-10", agent_id := 7 }],
          offers := [],
          reservations := [{ id := 1, event_id := 1, name := "Sam", bring := "" }], reservation_lines := [],
          nextEventId := 2, nextOfferId := 1, nextReservationId := 2 })) := by
  constructor
  · exact C2_flash_priority_amended.1 (fun _ _ _ => true) "2025-06-10" ["Œufs"]
      { fields := [("agent", "7"), ("d", "2025-06-10"), ("k", "tok"), ("bring", "jus")] }
      _ { id := 1, event_date := "2025-06-10", menu := [], is_open := true, is_planned := false }
      (by decide) (Or.inl (by decide))
  · exact (C2_flash_priority_amended.2.2.2.2.1 (fun _ _ _ => true) "2025-06-10" ["Œufs"]
      { fields := [("agent", "7"), ("d", "2025-06-10"), ("k", "tok"), ("bring", "jus")] }
      _ { id := 1, event_date := "2025-06-10", menu := [], is_open := true, is_planned := true }
      { id := 7, name := "Sam", phone := "06", whatsapp_optin := true, is_active := true }
      (by decide) (by decide) (by decide) (by decide) (by decide)).2

end Breakfast
